import Mathlib

/-!
Verification development for the Harvester-Tracker-Sim repository.

The simulation engine (`src/sim/engine.ts`) is shallowly embedded below:
JavaScript numbers are modelled as exact rationals (`ℚ`), the engine's
`structuredClone` is the identity on immutable values, and the single
JavaScript value `undefined` stored in the summary field `avgSpeedKmh`
(of declared type `number`) is modelled by `Option ℚ` with `none` for
`undefined`.  The lane generator (`src/map/laneGen.ts`) and the lane
follower (`useLaneSim` in `src/map/MapField.tsx`) are embedded further
down, with the external turf.js geometry primitives instantiated by
exact planar geometry on axis-aligned rectangles.
-/

namespace HarvesterSim

/-- Operator status enumeration from `engine.ts` line 1. -/
inductive OperatorStatus where
  | Idle
  | Harvesting
  | Unloading
  | Alarm
deriving DecidableEq, Repr

/-- Field configuration (`engine.ts` lines 3-8); the nested `trailer`
point is flattened into two fields. -/
structure FieldConfig where
  width : ℚ
  height : ℚ
  headerWidth : ℚ
  trailerX : ℚ
  trailerY : ℚ
deriving DecidableEq, Repr

/-- Machine configuration (`engine.ts` lines 10-20); the two optional
loss thresholds are `Option ℚ`. -/
structure MachineConfig where
  tankCapacityKg : ℚ
  unloadRateKgPerMin : ℚ
  optimalMinKmh : ℚ
  optimalMaxKmh : ℚ
  warnMaxKmh : ℚ
  alarmMinKmh : ℚ
  yieldKgPerM2 : ℚ
  lossWarnPct : Option ℚ
  lossAlarmPct : Option ℚ
deriving DecidableEq, Repr

/-- Live metrics (`engine.ts` lines 22-33). -/
structure Metrics where
  speedKmh : ℚ
  distanceM : ℚ
  throughputKgPerS : ℚ
  harvestingRateTPerH : ℚ
  harvestingRateKgPerMin : ℚ
  tankKg : ℚ
  tankFillPct : ℚ
  lossPct : ℚ
  lossKgPerHa : ℚ
  areaHarvestedHa : ℚ
deriving DecidableEq, Repr

/-- Machine pose (`engine.ts` line 35). -/
structure Pose where
  x : ℚ
  y : ℚ
  headingDeg : ℚ
deriving DecidableEq, Repr

/-- Unload summary (`engine.ts` lines 46-51).  `avgSpeedKmh` is an
`Option ℚ` because the source stores the JavaScript value `undefined`
(via `undefined as unknown as number`) in it when `distanceM > 0`. -/
structure Summary where
  totalHarvestedKg : ℚ
  avgSpeedKmh : Option ℚ
  avgLossPct : ℚ
  areaHa : ℚ
deriving DecidableEq, Repr

/-- Full simulation state (`engine.ts` lines 37-52). -/
structure SimState where
  status : OperatorStatus
  field : FieldConfig
  machine : MachineConfig
  pose : Pose
  laneIndex : ℚ
  goingRight : Bool
  metrics : Metrics
  timeScale : ℚ
  summary : Option Summary
deriving DecidableEq, Repr

/-- Default field configuration (`engine.ts` lines 54-59). -/
def defaultField : FieldConfig :=
  { width := 600, height := 400, headerWidth := 15/2, trailerX := 580, trailerY := 20 }

/-- Default machine configuration (`engine.ts` lines 61-74). -/
def defaultMachine : MachineConfig :=
  { tankCapacityKg := 8000
    unloadRateKgPerMin := 3600
    optimalMinKmh := 5
    optimalMaxKmh := 6
    warnMaxKmh := 7
    alarmMinKmh := 8
    yieldKgPerM2 := 3/5
    lossWarnPct := some (3/2)
    lossAlarmPct := some 2 }

/-- Initial state (`engine.ts` lines 76-99). -/
def createInitialState : SimState :=
  { status := OperatorStatus.Idle
    field := defaultField
    machine := defaultMachine
    pose := { x := 10, y := 10, headingDeg := 0 }
    laneIndex := 0
    goingRight := true
    metrics :=
      { speedKmh := 11/2
        distanceM := 0
        throughputKgPerS := 0
        harvestingRateTPerH := 0
        harvestingRateKgPerMin := 0
        tankKg := 0
        tankFillPct := 0
        lossPct := 4/5
        lossKgPerHa := 0
        areaHarvestedHa := 0 }
    timeScale := 1
    summary := none }

/-- Unit conversion (`engine.ts` line 101). -/
def kmhToMps (kmh : ℚ) : ℚ := kmh / (18/5)

/-- Piecewise grain-loss model (`engine.ts` lines 103-121).  Note that
the final branch uses the literal constant `8`, not the `alarmMin`
parameter, exactly as in the source (`3.0 + 2.0 * (speedKmh - 8)`). -/
def computeLossPct (speedKmh optimalMax alarmMin : ℚ) : ℚ :=
  if speedKmh ≤ optimalMax then 1
  else if speedKmh < 7 then
    let t := speedKmh - optimalMax
    1 + 1/2 * t * t
  else if speedKmh < alarmMin then 3/2 + 3/2 * (speedKmh - 7)
  else min 12 (3 + 2 * (speedKmh - 8))

/-- Piecewise loss function exactly as the specification words it
(spec section 4.2): the last branch subtracts the configured `alarmMin`
rather than the constant 8.  Kept separate so the engine's function can
be compared against the specification text. -/
def lossPctSpec (speedKmh optimalMax alarmMin : ℚ) : ℚ :=
  if speedKmh ≤ optimalMax then 1
  else if speedKmh < 7 then 1 + 1/2 * (speedKmh - optimalMax) * (speedKmh - optimalMax)
  else if speedKmh < alarmMin then 3/2 + 3/2 * (speedKmh - 7)
  else min 12 (3 + 2 * (speedKmh - alarmMin))

/-- Tick input record (`engine.ts` lines 123-130). -/
structure Controls where
  targetSpeedKmh : ℚ
  running : Bool
deriving DecidableEq, Repr

structure TickInput where
  dtMs : ℚ
  state : SimState
  controls : Controls
deriving DecidableEq, Repr

/-- Status transitions at the top of `tick` (`engine.ts` lines 139-140):
not running and not unloading goes Idle; otherwise, when not unloading,
Harvesting; Unloading is left unchanged. -/
def transitionStatus (running : Bool) (st : OperatorStatus) : OperatorStatus :=
  if running = false ∧ st ≠ OperatorStatus.Unloading then OperatorStatus.Idle
  else if st ≠ OperatorStatus.Unloading then OperatorStatus.Harvesting
  else st

/-- Loss percentage computed inside the harvesting block (`engine.ts`
line 169). -/
def harvestLossPct (s : SimState) (speedKmh : ℚ) : ℚ :=
  computeLossPct speedKmh s.machine.optimalMaxKmh s.machine.alarmMinKmh

/-- Potential throughput (`engine.ts` line 168). -/
def potentialKgPerS (s : SimState) (speedKmh : ℚ) : ℚ :=
  kmhToMps speedKmh * s.field.headerWidth * s.machine.yieldKgPerM2

/-- Captured throughput (`engine.ts` line 170). -/
def capturedKgPerS (s : SimState) (speedKmh : ℚ) : ℚ :=
  potentialKgPerS s speedKmh * (1 - harvestLossPct s speedKmh / 100)

/-- Pose, lane-switch and lane-wrap part of the harvesting block
(`engine.ts` lines 144-160).  These writes touch only `pose`,
`laneIndex` and `goingRight`. -/
def poseStep (s : SimState) (speedMps dtSec : ℚ) : SimState :=
  let nextX := s.pose.x + (if s.goingRight then 1 else -1) * speedMps * dtSec
  let laneY := 10 + s.laneIndex * s.field.headerWidth
  let a : SimState :=
    { s with pose := { x := nextX
                       y := min (s.field.height - 5) laneY
                       headingDeg := if s.goingRight then 0 else 180 } }
  -- Lane switching (lines 151-156): two sequential conditionals.
  let b : SimState :=
    if a.goingRight = true ∧ a.pose.x ≥ a.field.width - 10 then
      { a with goingRight := false, laneIndex := a.laneIndex + 1
               pose := { a.pose with headingDeg := 180 } }
    else a
  let c : SimState :=
    if b.goingRight = false ∧ b.pose.x ≤ 10 then
      { b with goingRight := true, laneIndex := b.laneIndex + 1
               pose := { b.pose with headingDeg := 0 } }
    else b
  -- Lane wrap (lines 159-160).
  let maxLanes : ℚ := (Int.floor ((c.field.height - 20) / c.field.headerWidth) : ℤ)
  if c.laneIndex > maxLanes then
    { c with laneIndex := 0, pose := { c.pose with y := 10 } }
  else c

/-- Metrics, tank and status part of the harvesting block (`engine.ts`
lines 163-190).  The sequence of in-place metric writes of the source is
collected into one record update; `lossPct` and the captured throughput
only depend on `field`/`machine`, which the pose writes never touch. -/
def harvestMetrics (s : SimState) (speedKmh dtSec : ℚ) : SimState :=
  let speedMps := kmhToMps speedKmh
  let sweptAreaM2 := speedMps * dtSec * s.field.headerWidth
  let lossPct := harvestLossPct s speedKmh
  let captured := capturedKgPerS s speedKmh
  let m4 : Metrics :=
    { s.metrics with
        distanceM := s.metrics.distanceM + |speedMps * dtSec|
        areaHarvestedHa := s.metrics.areaHarvestedHa + (max 0 sweptAreaM2) / 10000
        throughputKgPerS := captured
        harvestingRateTPerH := captured * (18/5) / 1000
        harvestingRateKgPerMin := captured * 60
        lossPct := lossPct
        lossKgPerHa := s.machine.yieldKgPerM2 * 10000 * (lossPct / 100)
        tankKg := s.metrics.tankKg + captured * dtSec }
  let m5 : Metrics :=
    { m4 with tankFillPct := min 100 (m4.tankKg / s.machine.tankCapacityKg * 100) }
  let e : SimState := { s with metrics := m5 }
  -- Loss alarm (lines 182-185), then tank-full transition (lines 188-190).
  let lossAlarm := e.machine.lossAlarmPct.getD 2
  let f : SimState :=
    if lossPct ≥ lossAlarm then { e with status := OperatorStatus.Alarm } else e
  if f.metrics.tankKg ≥ f.machine.tankCapacityKg then
    { f with status := OperatorStatus.Unloading }
  else f

/-- Movement-and-harvesting block of `tick` (`engine.ts` lines 143-191),
executed only when the status is not Unloading and `running` is true.
`speedKmh` is the effective speed and `dtSec` the scaled elapsed time. -/
def harvestStep (s : SimState) (speedKmh dtSec : ℚ) : SimState :=
  harvestMetrics (poseStep s (kmhToMps speedKmh) dtSec) speedKmh dtSec

/-- Mass removed from the tank in one unloading tick (`engine.ts`
lines 198-199): `(unloadRateKgPerMin / 60) * dtSec`. -/
def unloadDelta (s : SimState) (dtSec : ℚ) : ℚ :=
  s.machine.unloadRateKgPerMin / 60 * dtSec

/-- Unloading block of `tick` (`engine.ts` lines 194-215), executed when
the status (possibly set this very tick) is Unloading. -/
def unloadStep (s : SimState) (dtSec : ℚ) : SimState :=
  let m1 : Metrics := { s.metrics with speedKmh := 0, throughputKgPerS := 0 }
  let m2 : Metrics := { m1 with tankKg := max 0 (m1.tankKg - unloadDelta s dtSec) }
  let m3 : Metrics :=
    { m2 with tankFillPct := m2.tankKg / s.machine.tankCapacityKg * 100 }
  let h : SimState := { s with metrics := m3 }
  if h.metrics.tankKg ≤ 1/100 then
    { h with
        summary := some
          { totalHarvestedKg := h.machine.tankCapacityKg
            avgSpeedKmh := if h.metrics.distanceM > 0 then none else some 0
            avgLossPct := h.metrics.lossPct
            areaHa := h.metrics.areaHarvestedHa }
        metrics := { h.metrics with tankKg := 0, tankFillPct := 0 }
        status := OperatorStatus.Harvesting }
  else h

/-- Scaled elapsed seconds (`engine.ts` line 134). -/
def tickDtSec (i : TickInput) : ℚ := i.dtMs / 1000 * i.state.timeScale

/-- Effective speed (`engine.ts` line 135). -/
def tickSpeedKmh (i : TickInput) : ℚ :=
  if i.controls.running then i.controls.targetSpeedKmh else 0

/-- State after the status transitions (`engine.ts` lines 139-140). -/
def tickS1 (i : TickInput) : SimState :=
  { i.state with status := transitionStatus i.controls.running i.state.status }

/-- State after the movement-and-harvesting block (`engine.ts`
lines 143-191), which runs only when the status is not Unloading and
the machine is running. -/
def tickS2 (i : TickInput) : SimState :=
  if (tickS1 i).status ≠ OperatorStatus.Unloading ∧ i.controls.running = true then
    harvestStep (tickS1 i) (tickSpeedKmh i) (tickDtSec i)
  else tickS1 i

/-- State after the unloading block (`engine.ts` lines 194-215), which
runs when the status (possibly set this very tick) is Unloading. -/
def tickS3 (i : TickInput) : SimState :=
  if (tickS2 i).status = OperatorStatus.Unloading then
    unloadStep (tickS2 i) (tickDtSec i)
  else tickS2 i

/-- Core transition function (`engine.ts` lines 132-221).  The source
clones the incoming state (`structuredClone`) and mutates the clone;
in this pure embedding the clone is the value itself and the sequential
mutations are threaded through the named intermediate states `tickS1`
(status transitions), `tickS2` (movement and harvesting) and `tickS3`
(unloading).  The final update reproduces line 219: the displayed speed
is 0 while the resulting status is Unloading, else the effective speed. -/
def tick (i : TickInput) : SimState :=
  { tickS3 i with
      metrics := { (tickS3 i).metrics with
                     speedKmh := if (tickS3 i).status = OperatorStatus.Unloading then 0
                                 else tickSpeedKmh i } }

/-- Iterated ticks with a fixed `dtMs` and fixed controls, as driven by
the repeating frame callback in `useSimulation.ts`. -/
def tickSeq (dtMs : ℚ) (c : Controls) : ℕ → SimState → SimState
  | 0, s => s
  | n + 1, s => tickSeq dtMs c n (tick ⟨dtMs, s, c⟩)

/-! ## Lane follower (`useLaneSim` in `src/map/MapField.tsx`)

The follower consumes a lane only through its length
(`turf.length(lane) * 1000`, meters) and the clamped arc distance fed
to `turf.along`; lanes are therefore embedded as their list of lengths
(`List ℚ`), and the interpolated position is represented by the arc
distance along the current lane at which `turf.along` is evaluated. -/

/-- Accumulator state of the follower (`MapField.tsx` lines 102-105). -/
structure LaneSimState where
  laneIndex : ℕ
  distM : ℚ
deriving DecidableEq, Repr

/-- The while loop of `useLaneSim` (`MapField.tsx` lines 136-141):
while the accumulated distance exceeds the current lane's length and a
further lane exists, subtract the length and advance the index.  The
loop advances the index at most `lens.length` times, so it is embedded
with a fuel argument; callers pass `lens.length`. -/
def followWalk (lens : List ℚ) (laneIndex : ℕ) (distM : ℚ) : ℕ → ℕ × ℚ
  | 0 => (laneIndex, distM)
  | fuel + 1 =>
    if distM > lens.getD laneIndex 0 ∧ laneIndex < lens.length - 1 then
      followWalk lens (laneIndex + 1) (distM - lens.getD laneIndex 0) fuel
    else (laneIndex, distM)

/-- One animation step of `useLaneSim` (`MapField.tsx` lines 127-150):
accumulate `speedMps * min(dt, 200) / 1000` while running, walk the
lane list, and produce the new accumulator together with the clamped
arc distance `max(0, min(laneLenM, distM))` (in meters) at which the
displayed position is interpolated along the current lane. -/
def laneSimStep (lens : List ℚ) (st : LaneSimState) (running : Bool)
    (speedKmh timeScale dtMs : ℚ) : LaneSimState × ℚ :=
  let speedMps := speedKmh / (18/5) * timeScale
  let dist1 := if running then st.distM + speedMps * (min dtMs 200) / 1000 else st.distM
  let w := followWalk lens st.laneIndex dist1 lens.length
  let laneLenM := lens.getD w.1 0
  (⟨w.1, w.2⟩, max 0 (min laneLenM w.2))

/-! ## Lane generator (`src/map/laneGen.ts`)

`generateLanes` delegates all geometry to the external turf.js library
(centroid, bbox, destination, lineOffset, lineSplit, length, along,
booleanPointInPolygon).  For the rectangular fields that the claims
talk about, those primitives are instantiated below by exact planar
geometry on an axis-aligned rectangle `[x0, x0+W] × [y0, y0+H]` with
`H > W` (so the bbox heuristic of line 24 picks bearing 90 and the
lanes run along the x-axis, offset along the y-axis).  The baseline
through the centroid, offset by `i * header` for
`i = -maxOffsets .. maxOffsets` (line 34) and clipped against the
rectangle, is the horizontal segment from `(x0, y)` to `(x0+W, y)` at
`y = (y0 + H/2) + i * header`, retained exactly when its midpoint is
strictly inside the rectangle and its length `W` is at least
`minSegmentM` (lines 40-51).  Offsets are generated in ascending `y`
order, so the sort of lines 61-65 is the identity, and the
empty-streak early exit of lines 53-55 only skips offsets that
contribute no lane, leaving the result unchanged; both are therefore
omitted from the embedding. -/

/-- Planar point. -/
structure Pt where
  x : ℚ
  y : ℚ
deriving DecidableEq, Repr

/-- Offset indices `-maxOffsets .. maxOffsets` in ascending order
(`laneGen.ts` line 34). -/
def laneOffsets (maxOffsets : ℕ) : List ℤ :=
  (List.range (2 * maxOffsets + 1)).map (fun k : ℕ => -(maxOffsets : ℤ) + (k : ℤ))

/-- Clip of the offset baseline number `i` against the rectangle
(`laneGen.ts` lines 36-51): the horizontal segment at
`y = (y0 + H/2) + i * header`, kept when its midpoint is strictly
inside the rectangle and its length `W` reaches `minSeg`. -/
def rectClipLane (x0 y0 W H header minSeg : ℚ) (i : ℤ) : Option (List Pt) :=
  let y := (y0 + H / 2) + (i : ℚ) * header
  if y0 < y ∧ y < y0 + H ∧ minSeg ≤ W then
    some [⟨x0, y⟩, ⟨x0 + W, y⟩]
  else none

/-- Boustrophedon pass (`laneGen.ts` lines 68-73): the lane at every
odd index has its coordinate order reversed. -/
def boustrophedon (lanes : List (List Pt)) : List (List Pt) :=
  (List.range lanes.length).map (fun i =>
    if i % 2 = 1 then (lanes.getD i []).reverse else lanes.getD i [])

/-- Lane generation (`laneGen.ts` lines 14-75) specialised to an
axis-aligned rectangle taller than wide, with the planar instantiation
of the turf primitives described above. -/
def generateLanesRect (x0 y0 W H header minSeg : ℚ) (maxOffsets : ℕ) : List (List Pt) :=
  boustrophedon ((laneOffsets maxOffsets).filterMap (rectClipLane x0 y0 W H header minSeg))

/-- Header-width selection (`laneGen.ts` line 15): the JavaScript
expression `opts.headerWidthM || 7.5` substitutes the default 7.5
exactly when the supplied value is falsy — for a rational, when it is
0 — and passes every other value through unchanged, including negative
ones.  No validation is performed. -/
def resolveHeaderWidth (headerWidthM : ℚ) : ℚ :=
  if headerWidthM = 0 then 15/2 else headerWidthM

/-- First coordinate of a lane. -/
def laneStart (lane : List Pt) : Pt := lane.headD ⟨0, 0⟩

/-- Last coordinate of a lane. -/
def laneEnd (lane : List Pt) : Pt := lane.getLastD ⟨0, 0⟩

/-! ## Concrete instances used by witnesses and counterexamples -/

/-- Unloading state carrying 50 kg in the tank after 500 m of travel. -/
def unloadDemoState : SimState :=
  { createInitialState with
      status := OperatorStatus.Unloading
      metrics := { createInitialState.metrics with tankKg := 50, distanceM := 500 } }

/-- One second of unloading from `unloadDemoState`, machine stopped. -/
def unloadDemoInput : TickInput := ⟨1000, unloadDemoState, ⟨11/2, false⟩⟩

/-- Tick input with a negative header width (an invalid configuration
in the sense of the specification). -/
def negHeaderInput : TickInput :=
  ⟨1000, { createInitialState with field := { defaultField with headerWidth := -1 } },
    ⟨5, true⟩⟩

/-- Tick input that overfills the tank: 7999 kg aboard, 100 seconds of
harvesting at 100 km/h gains 11000 kg, and the same-tick unload removes
only 6000 kg, leaving 12999 kg in an 8000 kg tank. -/
def overfillInput : TickInput :=
  ⟨100000, { createInitialState with
               metrics := { createInitialState.metrics with tankKg := 7999 } },
    ⟨100, true⟩⟩

/-- Unloading tick that completes the drain (50 kg left, one second at
3600 kg/min) while the operator keeps `running = true` at 5 km/h. -/
def completingUnloadInput : TickInput :=
  ⟨1000, { createInitialState with
             status := OperatorStatus.Unloading
             metrics := { createInitialState.metrics with tankKg := 50 } },
    ⟨5, true⟩⟩

/-- Unloading tick in mid-drain (5000 kg left, one second). -/
def midUnloadInput : TickInput :=
  ⟨1000, { createInitialState with
             status := OperatorStatus.Unloading
             metrics := { createInitialState.metrics with tankKg := 5000 } },
    ⟨11/2, false⟩⟩

section StepLemmas

variable (s : SimState) (v dt : ℚ)

lemma poseStep_status : (poseStep s v dt).status = s.status := by
  simp only [poseStep]; split_ifs <;> rfl

lemma poseStep_field : (poseStep s v dt).field = s.field := by
  simp only [poseStep]; split_ifs <;> rfl

lemma poseStep_machine : (poseStep s v dt).machine = s.machine := by
  simp only [poseStep]; split_ifs <;> rfl

lemma poseStep_metrics : (poseStep s v dt).metrics = s.metrics := by
  simp only [poseStep]; split_ifs <;> rfl

lemma poseStep_timeScale : (poseStep s v dt).timeScale = s.timeScale := by
  simp only [poseStep]; split_ifs <;> rfl

lemma poseStep_summary : (poseStep s v dt).summary = s.summary := by
  simp only [poseStep]; split_ifs <;> rfl

lemma capturedKgPerS_poseStep (w : ℚ) :
    capturedKgPerS (poseStep s w dt) v = capturedKgPerS s v := by
  simp [capturedKgPerS, potentialKgPerS, harvestLossPct, poseStep_field, poseStep_machine]

lemma harvestLossPct_poseStep (w : ℚ) :
    harvestLossPct (poseStep s w dt) v = harvestLossPct s v := by
  simp [harvestLossPct, poseStep_machine]

lemma harvestMetrics_field : (harvestMetrics s v dt).field = s.field := by
  simp only [harvestMetrics]; split_ifs <;> rfl

lemma harvestMetrics_machine : (harvestMetrics s v dt).machine = s.machine := by
  simp only [harvestMetrics]; split_ifs <;> rfl

lemma harvestMetrics_pose : (harvestMetrics s v dt).pose = s.pose := by
  simp only [harvestMetrics]; split_ifs <;> rfl

lemma harvestMetrics_laneIndex : (harvestMetrics s v dt).laneIndex = s.laneIndex := by
  simp only [harvestMetrics]; split_ifs <;> rfl

lemma harvestMetrics_goingRight : (harvestMetrics s v dt).goingRight = s.goingRight := by
  simp only [harvestMetrics]; split_ifs <;> rfl

lemma harvestMetrics_timeScale : (harvestMetrics s v dt).timeScale = s.timeScale := by
  simp only [harvestMetrics]; split_ifs <;> rfl

lemma harvestMetrics_summary : (harvestMetrics s v dt).summary = s.summary := by
  simp only [harvestMetrics]; split_ifs <;> rfl

lemma harvestMetrics_tankKg :
    (harvestMetrics s v dt).metrics.tankKg = s.metrics.tankKg + capturedKgPerS s v * dt := by
  simp only [harvestMetrics]; split_ifs <;> rfl

lemma harvestMetrics_tankFillPct :
    (harvestMetrics s v dt).metrics.tankFillPct =
      min 100 ((s.metrics.tankKg + capturedKgPerS s v * dt) / s.machine.tankCapacityKg * 100) := by
  simp only [harvestMetrics]; split_ifs <;> rfl

lemma harvestMetrics_distanceM :
    (harvestMetrics s v dt).metrics.distanceM = s.metrics.distanceM + |kmhToMps v * dt| := by
  simp only [harvestMetrics]; split_ifs <;> rfl

lemma harvestMetrics_areaHarvestedHa :
    (harvestMetrics s v dt).metrics.areaHarvestedHa =
      s.metrics.areaHarvestedHa + (max 0 (kmhToMps v * dt * s.field.headerWidth)) / 10000 := by
  simp only [harvestMetrics]; split_ifs <;> rfl

lemma harvestMetrics_lossPct :
    (harvestMetrics s v dt).metrics.lossPct = harvestLossPct s v := by
  simp only [harvestMetrics]; split_ifs <;> rfl

lemma harvestMetrics_throughputKgPerS :
    (harvestMetrics s v dt).metrics.throughputKgPerS = capturedKgPerS s v := by
  simp only [harvestMetrics]; split_ifs <;> rfl

lemma harvestMetrics_speedKmh :
    (harvestMetrics s v dt).metrics.speedKmh = s.metrics.speedKmh := by
  simp only [harvestMetrics]; split_ifs <;> rfl

lemma harvestMetrics_status :
    (harvestMetrics s v dt).status =
      if s.metrics.tankKg + capturedKgPerS s v * dt ≥ s.machine.tankCapacityKg then
        OperatorStatus.Unloading
      else if harvestLossPct s v ≥ s.machine.lossAlarmPct.getD 2 then OperatorStatus.Alarm
      else s.status := by
  simp only [harvestMetrics]
  split_ifs <;> simp_all

lemma unloadStep_field : (unloadStep s dt).field = s.field := by
  simp only [unloadStep]; split_ifs <;> rfl

lemma unloadStep_machine : (unloadStep s dt).machine = s.machine := by
  simp only [unloadStep]; split_ifs <;> rfl

lemma unloadStep_pose : (unloadStep s dt).pose = s.pose := by
  simp only [unloadStep]; split_ifs <;> rfl

lemma unloadStep_timeScale : (unloadStep s dt).timeScale = s.timeScale := by
  simp only [unloadStep]; split_ifs <;> rfl

lemma unloadStep_throughputKgPerS : (unloadStep s dt).metrics.throughputKgPerS = 0 := by
  simp only [unloadStep]; split_ifs <;> rfl

lemma unloadStep_speedKmh : (unloadStep s dt).metrics.speedKmh = 0 := by
  simp only [unloadStep]; split_ifs <;> rfl

lemma unloadStep_distanceM : (unloadStep s dt).metrics.distanceM = s.metrics.distanceM := by
  simp only [unloadStep]; split_ifs <;> rfl

lemma unloadStep_areaHarvestedHa :
    (unloadStep s dt).metrics.areaHarvestedHa = s.metrics.areaHarvestedHa := by
  simp only [unloadStep]; split_ifs <;> rfl

lemma unloadStep_lossPct : (unloadStep s dt).metrics.lossPct = s.metrics.lossPct := by
  simp only [unloadStep]; split_ifs <;> rfl

lemma unloadStep_not_done
    (h : ¬ max 0 (s.metrics.tankKg - unloadDelta s dt) ≤ 1/100) :
    (unloadStep s dt).status = s.status ∧
    (unloadStep s dt).metrics.tankKg = max 0 (s.metrics.tankKg - unloadDelta s dt) ∧
    (unloadStep s dt).metrics.tankFillPct =
      max 0 (s.metrics.tankKg - unloadDelta s dt) / s.machine.tankCapacityKg * 100 ∧
    (unloadStep s dt).summary = s.summary := by
  simp only [unloadStep]
  split_ifs with h1 h2 <;> first | exact absurd h1 h | exact ⟨rfl, rfl, rfl, rfl⟩

lemma unloadStep_done
    (h : max 0 (s.metrics.tankKg - unloadDelta s dt) ≤ 1/100) :
    (unloadStep s dt).status = OperatorStatus.Harvesting ∧
    (unloadStep s dt).metrics.tankKg = 0 ∧
    (unloadStep s dt).metrics.tankFillPct = 0 ∧
    (unloadStep s dt).summary = some
      { totalHarvestedKg := s.machine.tankCapacityKg
        avgSpeedKmh := if s.metrics.distanceM > 0 then none else some 0
        avgLossPct := s.metrics.lossPct
        areaHa := s.metrics.areaHarvestedHa } := by
  simp only [unloadStep]
  split_ifs with h1 h2 <;> first | exact ⟨rfl, rfl, rfl, rfl⟩ | exact absurd h h1

end StepLemmas

section TickLemmas

variable (s : SimState) (v dt : ℚ) (i : TickInput)

lemma harvestStep_field : (harvestStep s v dt).field = s.field := by
  simp [harvestStep, harvestMetrics_field, poseStep_field]

lemma harvestStep_machine : (harvestStep s v dt).machine = s.machine := by
  simp [harvestStep, harvestMetrics_machine, poseStep_machine]

lemma harvestStep_timeScale : (harvestStep s v dt).timeScale = s.timeScale := by
  simp [harvestStep, harvestMetrics_timeScale, poseStep_timeScale]

lemma harvestStep_summary : (harvestStep s v dt).summary = s.summary := by
  simp [harvestStep, harvestMetrics_summary, poseStep_summary]

lemma harvestStep_tankKg :
    (harvestStep s v dt).metrics.tankKg = s.metrics.tankKg + capturedKgPerS s v * dt := by
  simp [harvestStep, harvestMetrics_tankKg, poseStep_metrics, capturedKgPerS_poseStep]

lemma harvestStep_tankFillPct :
    (harvestStep s v dt).metrics.tankFillPct =
      min 100 ((s.metrics.tankKg + capturedKgPerS s v * dt) / s.machine.tankCapacityKg * 100) := by
  simp [harvestStep, harvestMetrics_tankFillPct, poseStep_metrics, poseStep_machine,
    capturedKgPerS_poseStep]

lemma harvestStep_distanceM :
    (harvestStep s v dt).metrics.distanceM = s.metrics.distanceM + |kmhToMps v * dt| := by
  simp [harvestStep, harvestMetrics_distanceM, poseStep_metrics]

lemma harvestStep_areaHarvestedHa :
    (harvestStep s v dt).metrics.areaHarvestedHa =
      s.metrics.areaHarvestedHa + (max 0 (kmhToMps v * dt * s.field.headerWidth)) / 10000 := by
  simp [harvestStep, harvestMetrics_areaHarvestedHa, poseStep_metrics, poseStep_field]

lemma harvestStep_lossPct :
    (harvestStep s v dt).metrics.lossPct = harvestLossPct s v := by
  simp [harvestStep, harvestMetrics_lossPct, harvestLossPct_poseStep]

lemma harvestStep_throughputKgPerS :
    (harvestStep s v dt).metrics.throughputKgPerS = capturedKgPerS s v := by
  simp [harvestStep, harvestMetrics_throughputKgPerS, capturedKgPerS_poseStep]

lemma harvestStep_status :
    (harvestStep s v dt).status =
      if s.metrics.tankKg + capturedKgPerS s v * dt ≥ s.machine.tankCapacityKg then
        OperatorStatus.Unloading
      else if harvestLossPct s v ≥ s.machine.lossAlarmPct.getD 2 then OperatorStatus.Alarm
      else s.status := by
  simp [harvestStep, harvestMetrics_status, poseStep_metrics, poseStep_machine,
    capturedKgPerS_poseStep, harvestLossPct_poseStep, poseStep_status]

lemma tickS1_field : (tickS1 i).field = i.state.field := rfl

lemma tickS1_machine : (tickS1 i).machine = i.state.machine := rfl

lemma tickS1_summary : (tickS1 i).summary = i.state.summary := rfl

lemma tickS2_field : (tickS2 i).field = i.state.field := by
  simp only [tickS2]; split_ifs <;> simp [harvestStep_field, tickS1_field]

lemma tickS2_machine : (tickS2 i).machine = i.state.machine := by
  simp only [tickS2]; split_ifs <;> simp [harvestStep_machine, tickS1_machine]

lemma tickS2_summary : (tickS2 i).summary = i.state.summary := by
  simp only [tickS2]; split_ifs <;> simp [harvestStep_summary, tickS1_summary]

lemma tickS3_field : (tickS3 i).field = i.state.field := by
  simp only [tickS3]; split_ifs <;> simp [unloadStep_field, tickS2_field]

lemma tickS3_machine : (tickS3 i).machine = i.state.machine := by
  simp only [tickS3]; split_ifs <;> simp [unloadStep_machine, tickS2_machine]

lemma tick_field : (tick i).field = i.state.field := tickS3_field i

lemma tick_machine : (tick i).machine = i.state.machine := tickS3_machine i

lemma tick_summary : (tick i).summary = (tickS3 i).summary := rfl

lemma tick_distanceM : (tick i).metrics.distanceM = (tickS3 i).metrics.distanceM := rfl

end TickLemmas

lemma tick_negHeader_eval :
    (tick negHeaderInput).status = OperatorStatus.Harvesting ∧
    (tick negHeaderInput).metrics.tankKg = -33/40 := by
  constructor <;>
    norm_num +decide [tick, tickS3, tickS2, tickS1, transitionStatus, harvestStep, harvestMetrics,
      poseStep, capturedKgPerS, potentialKgPerS, harvestLossPct, computeLossPct, kmhToMps,
      unloadStep, unloadDelta, tickDtSec, tickSpeedKmh, negHeaderInput, createInitialState,
      defaultField, defaultMachine, max_def, min_def]

/-- Claim C4 (counterexample): neither function fails on an invalid
configuration.  With `headerWidth = -1` (≤ 0), `tick` returns a
normally computed successor state — status Harvesting and a silently
nonsensical negative tank mass — instead of failing with
`InvalidConfig`; and `generateLanes` substitutes the default header
width 7.5 when given 0 instead of failing. -/
theorem C4_counterexample :
    (tick negHeaderInput).status = OperatorStatus.Harvesting ∧
    (tick negHeaderInput).metrics.tankKg = -33/40 ∧
    resolveHeaderWidth 0 = 15/2 :=
  ⟨tick_negHeader_eval.1, tick_negHeader_eval.2, by norm_num [resolveHeaderWidth]⟩

/-- Claim C4 (amended): no configuration validation exists.  `tick`
totally computes a successor state by the ordinary update rules even
for `headerWidth ≤ 0` (producing, at the concrete invalid input, a
negative tank mass), and `generateLanes` substitutes the default
header width 7.5 exactly when the supplied value is 0 (the JavaScript
`||` fallback) and passes all other values — including negative ones —
through unchanged.  No `InvalidConfig` failure path exists in either
function. -/
theorem C4_no_validation :
    (∀ q : ℚ, q ≠ 0 → resolveHeaderWidth q = q) ∧
    resolveHeaderWidth 0 = 15/2 ∧
    (tick negHeaderInput).status = OperatorStatus.Harvesting ∧
    (tick negHeaderInput).metrics.tankKg = -33/40 :=
  ⟨fun q hq => by simp [resolveHeaderWidth, hq], by norm_num [resolveHeaderWidth],
    tick_negHeader_eval.1, tick_negHeader_eval.2⟩

/-- Witness for C4: the pass-through component applied at -1. -/
theorem C4_witness : ((-1 : ℚ) ≠ 0) ∧ resolveHeaderWidth (-1) = -1 :=
  ⟨by norm_num, C4_no_validation.1 (-1) (by norm_num)⟩

lemma transitionStatus_unloading (r : Bool) :
    transitionStatus r OperatorStatus.Unloading = OperatorStatus.Unloading := by
  simp [transitionStatus]

lemma tickS1_unloading (i : TickInput) (h : i.state.status = OperatorStatus.Unloading) :
    tickS1 i = i.state := by
  simp only [tickS1, h, transitionStatus_unloading]
  rw [← h]

lemma tickS2_unloading (i : TickInput) (h : i.state.status = OperatorStatus.Unloading) :
    tickS2 i = i.state := by
  simp [tickS2, tickS1_unloading i h, h]

lemma tickS3_unloading (i : TickInput) (h : i.state.status = OperatorStatus.Unloading) :
    tickS3 i = unloadStep i.state (tickDtSec i) := by
  simp [tickS3, tickS2_unloading i h, h]

/-- One unloading tick that does not finish draining: the vehicle shows
speed 0 and throughput 0, the tank loses `unloadDelta` (floored at 0),
the fill is recomputed without clamping, and everything else — status
included — is unchanged. -/
lemma tick_unloading_not_done (i : TickInput)
    (h : i.state.status = OperatorStatus.Unloading)
    (hnd : ¬ max 0 (i.state.metrics.tankKg - unloadDelta i.state (tickDtSec i)) ≤ 1/100) :
    tick i = { i.state with
        metrics := { i.state.metrics with
            speedKmh := 0
            throughputKgPerS := 0
            tankKg := max 0 (i.state.metrics.tankKg - unloadDelta i.state (tickDtSec i))
            tankFillPct := max 0 (i.state.metrics.tankKg - unloadDelta i.state (tickDtSec i)) /
              i.state.machine.tankCapacityKg * 100 } } := by
  have h3 := tickS3_unloading i h
  simp only [tick, h3, unloadStep]
  split_ifs <;>
    first
      | simp
      | exact absurd (by assumption) hnd
      | exact absurd h (by assumption)
      | contradiction

/-- One unloading tick that finishes draining: the summary is emitted,
tank and fill are reset, the status reverts to Harvesting and the
displayed speed becomes the effective speed again (line 219 runs after
the status has already left Unloading). -/
lemma tick_unloading_done (i : TickInput)
    (h : i.state.status = OperatorStatus.Unloading)
    (hd : max 0 (i.state.metrics.tankKg - unloadDelta i.state (tickDtSec i)) ≤ 1/100) :
    tick i = { i.state with
        status := OperatorStatus.Harvesting
        metrics := { i.state.metrics with
            speedKmh := tickSpeedKmh i
            throughputKgPerS := 0
            tankKg := 0
            tankFillPct := 0 }
        summary := some
          { totalHarvestedKg := i.state.machine.tankCapacityKg
            avgSpeedKmh := if i.state.metrics.distanceM > 0 then none else some 0
            avgLossPct := i.state.metrics.lossPct
            areaHa := i.state.metrics.areaHarvestedHa } } := by
  have h3 := tickS3_unloading i h
  simp only [tick, h3, unloadStep]
  split_ifs <;>
    first
      | contradiction
      | exact absurd hd (by assumption)
      | simp

lemma tickSeq_succ (dtMs : ℚ) (c : Controls) (n : ℕ) (s : SimState) :
    tickSeq dtMs c (n + 1) s = tick ⟨dtMs, tickSeq dtMs c n s, c⟩ := by
  induction n generalizing s with
  | zero => rfl
  | succ n ih =>
    show tickSeq dtMs c (n + 1) (tick ⟨dtMs, s, c⟩) = _
    rw [ih]
    rfl

/-- Invariant of the drain sequence: as long as the tank would still be
above the 0.01 kg epsilon, every tick leaves the machine Unloading with
configuration and harvest bookkeeping untouched and removes exactly one
`delta` from the tank. -/
lemma drain_invariant (s : SimState) (c : Controls) (dtMs : ℚ)
    (hst : s.status = OperatorStatus.Unloading)
    (htank : s.metrics.tankKg = s.machine.tankCapacityKg)
    (hdelta : 0 < s.machine.unloadRateKgPerMin / 60 * (dtMs / 1000 * s.timeScale)) :
    ∀ k : ℕ,
      1/100 < s.machine.tankCapacityKg -
        k * (s.machine.unloadRateKgPerMin / 60 * (dtMs / 1000 * s.timeScale)) →
      (tickSeq dtMs c k s).status = OperatorStatus.Unloading ∧
      (tickSeq dtMs c k s).machine = s.machine ∧
      (tickSeq dtMs c k s).timeScale = s.timeScale ∧
      (tickSeq dtMs c k s).summary = s.summary ∧
      (tickSeq dtMs c k s).metrics.tankKg =
        s.machine.tankCapacityKg -
          k * (s.machine.unloadRateKgPerMin / 60 * (dtMs / 1000 * s.timeScale)) ∧
      (tickSeq dtMs c k s).metrics.distanceM = s.metrics.distanceM ∧
      (tickSeq dtMs c k s).metrics.lossPct = s.metrics.lossPct ∧
      (tickSeq dtMs c k s).metrics.areaHarvestedHa = s.metrics.areaHarvestedHa := by
  set δ := s.machine.unloadRateKgPerMin / 60 * (dtMs / 1000 * s.timeScale) with hδdef
  intro k
  induction k with
  | zero =>
    intro _
    refine ⟨hst, rfl, rfl, rfl, ?_, rfl, rfl, rfl⟩
    simp [tickSeq, htank]
  | succ k ih =>
    intro hk1
    have hcast : ((k + 1 : ℕ) : ℚ) = (k : ℚ) + 1 := by push_cast; ring
    have hk : 1/100 < s.machine.tankCapacityKg - k * δ := by
      rw [hcast] at hk1
      nlinarith [hdelta]
    obtain ⟨q1, q2, q3, q4, q5, q6, q7, q8⟩ := ih hk
    have hdtsec : tickDtSec ⟨dtMs, tickSeq dtMs c k s, c⟩ = dtMs / 1000 * s.timeScale := by
      simp [tickDtSec, q3]
    have hdelta2 :
        unloadDelta (tickSeq dtMs c k s) (tickDtSec ⟨dtMs, tickSeq dtMs c k s, c⟩) = δ := by
      simp only [unloadDelta, hdtsec, q2, hδdef]
    have ht1 :
        max 0 ((tickSeq dtMs c k s).metrics.tankKg -
            unloadDelta (tickSeq dtMs c k s) (tickDtSec ⟨dtMs, tickSeq dtMs c k s, c⟩)) =
          s.machine.tankCapacityKg - (k + 1 : ℕ) * δ := by
      rw [q5, hdelta2, hcast]
      rw [max_eq_right (by nlinarith [hk1, hcast])]
      ring
    have hnd :
        ¬ max 0 ((tickSeq dtMs c k s).metrics.tankKg -
            unloadDelta (tickSeq dtMs c k s) (tickDtSec ⟨dtMs, tickSeq dtMs c k s, c⟩)) ≤
          1/100 := by
      rw [ht1]
      exact not_le.2 hk1
    rw [tickSeq_succ, tick_unloading_not_done ⟨dtMs, tickSeq dtMs c k s, c⟩ q1 hnd]
    exact ⟨q1, q2, q3, q4, ht1, q6, q7, q8⟩

/-- Full drain: starting Unloading with a full tank, some tick count
`N` bounded by one tick beyond `capacity / (unloadRate/60)` effective
seconds keeps the machine Unloading with an unchanged summary for every
tick before `N`, and the `N`-th tick resets tank and fill to 0, reverts
to Harvesting and emits the single summary of the cycle. -/
lemma drain_sequence (s : SimState) (c : Controls) (dtMs : ℚ)
    (hst : s.status = OperatorStatus.Unloading)
    (htank : s.metrics.tankKg = s.machine.tankCapacityKg)
    (hcap : 1/100 < s.machine.tankCapacityKg)
    (hrate : 0 < s.machine.unloadRateKgPerMin)
    (hdt : 0 < dtMs) (hts : 0 < s.timeScale) :
    ∃ N : ℕ, 0 < N ∧
      (∀ k, k < N →
        (tickSeq dtMs c k s).status = OperatorStatus.Unloading ∧
        (tickSeq dtMs c k s).summary = s.summary ∧
        (tickSeq dtMs c k s).metrics.tankKg =
          s.machine.tankCapacityKg -
            k * (s.machine.unloadRateKgPerMin / 60 * (dtMs / 1000 * s.timeScale))) ∧
      (tickSeq dtMs c N s).status = OperatorStatus.Harvesting ∧
      (tickSeq dtMs c N s).metrics.tankKg = 0 ∧
      (tickSeq dtMs c N s).metrics.tankFillPct = 0 ∧
      (tickSeq dtMs c N s).summary = some
        { totalHarvestedKg := s.machine.tankCapacityKg
          avgSpeedKmh := if s.metrics.distanceM > 0 then none else some 0
          avgLossPct := s.metrics.lossPct
          areaHa := s.metrics.areaHarvestedHa } ∧
      (N : ℚ) * (dtMs / 1000 * s.timeScale) ≤
        s.machine.tankCapacityKg / (s.machine.unloadRateKgPerMin / 60) +
          dtMs / 1000 * s.timeScale := by
  set δ := s.machine.unloadRateKgPerMin / 60 * (dtMs / 1000 * s.timeScale) with hδdef
  have hr60 : 0 < s.machine.unloadRateKgPerMin / 60 := by positivity
  have hsec : 0 < dtMs / 1000 * s.timeScale := by positivity
  have hδ : 0 < δ := mul_pos hr60 hsec
  set x := (s.machine.tankCapacityKg - 1/100) / δ with hxdef
  have hx : 0 < x := div_pos (by linarith) hδ
  have hlt : ∀ k : ℕ, (k : ℚ) < x → 1/100 < s.machine.tankCapacityKg - k * δ := by
    intro k hkx
    rw [hxdef] at hkx
    have := (lt_div_iff hδ).1 hkx
    linarith
  refine ⟨⌈x⌉₊, Nat.ceil_pos.2 hx, ?_, ?_⟩
  · intro k hk
    have hgt := hlt k (Nat.lt_ceil.1 hk)
    obtain ⟨q1, -, -, q4, q5, -, -, -⟩ := drain_invariant s c dtMs hst htank hδ k hgt
    exact ⟨q1, q4, q5⟩
  · obtain ⟨m, hm⟩ : ∃ m, ⌈x⌉₊ = m + 1 :=
      ⟨⌈x⌉₊ - 1, (Nat.succ_pred_eq_of_pos (Nat.ceil_pos.2 hx)).symm⟩
    have hgtm : 1/100 < s.machine.tankCapacityKg - m * δ := by
      refine hlt m (Nat.lt_ceil.1 ?_)
      omega
    obtain ⟨q1, q2, q3, q4, q5, q6, q7, q8⟩ :=
      drain_invariant s c dtMs hst htank hδ m hgtm
    have hceil : (s.machine.tankCapacityKg - 1/100) ≤ (⌈x⌉₊ : ℚ) * δ := by
      have hle := Nat.le_ceil x
      rw [hxdef] at hle
      calc s.machine.tankCapacityKg - 1/100
          = (s.machine.tankCapacityKg - 1/100) / δ * δ := by
            rw [div_mul_cancel₀]
            exact hδ.ne'
        _ ≤ (⌈x⌉₊ : ℚ) * δ := by
            exact mul_le_mul_of_nonneg_right hle hδ.le
    have hdtsec : tickDtSec ⟨dtMs, tickSeq dtMs c m s, c⟩ = dtMs / 1000 * s.timeScale := by
      simp [tickDtSec, q3]
    have hdelta2 :
        unloadDelta (tickSeq dtMs c m s) (tickDtSec ⟨dtMs, tickSeq dtMs c m s, c⟩) = δ := by
      simp only [unloadDelta, hdtsec, q2, hδdef]
    have hd :
        max 0 ((tickSeq dtMs c m s).metrics.tankKg -
            unloadDelta (tickSeq dtMs c m s) (tickDtSec ⟨dtMs, tickSeq dtMs c m s, c⟩)) ≤
          1/100 := by
      rw [q5, hdelta2]
      refine max_le (by norm_num) ?_
      have hmδ : ((m : ℚ) + 1) * δ = (⌈x⌉₊ : ℚ) * δ := by
        rw [hm]; push_cast; ring
      nlinarith [hceil, hmδ]
    have hNsucc : tickSeq dtMs c ⌈x⌉₊ s = tick ⟨dtMs, tickSeq dtMs c m s, c⟩ := by
      rw [hm, tickSeq_succ]
    rw [hNsucc, tick_unloading_done ⟨dtMs, tickSeq dtMs c m s, c⟩ q1 hd]
    refine ⟨rfl, rfl, rfl, ?_, ?_⟩
    · simp only [q2, q6, q7, q8]
    · have hNx : (⌈x⌉₊ : ℚ) < x + 1 := Nat.ceil_lt_add_one hx.le
      have hxval : x * (dtMs / 1000 * s.timeScale) =
          (s.machine.tankCapacityKg - 1/100) / (s.machine.unloadRateKgPerMin / 60) := by
        rw [hxdef, hδdef]
        field_simp
        ring
      have hmono : (⌈x⌉₊ : ℚ) * (dtMs / 1000 * s.timeScale) <
          (x + 1) * (dtMs / 1000 * s.timeScale) :=
        mul_lt_mul_of_pos_right hNx hsec
      have hfrac : (s.machine.tankCapacityKg - 1/100) / (s.machine.unloadRateKgPerMin / 60) ≤
          s.machine.tankCapacityKg / (s.machine.unloadRateKgPerMin / 60) :=
        (div_le_div_right hr60).2 (by linarith)
      nlinarith [hmono, hxval, hfrac]

/-- Claim C2 (counterexample): the displayed speed is not forced to 0 on
every tick whose input status is Unloading.  On the tick that finishes
draining, the status reverts to Harvesting before the final displayed
speed assignment (line 219), so with `running = true` at 5 km/h the
returned displayed speed is 5, not 0. -/
theorem C2_counterexample :
    completingUnloadInput.state.status = OperatorStatus.Unloading ∧
    (tick completingUnloadInput).metrics.speedKmh = 5 := by
  have h : completingUnloadInput.state.status = OperatorStatus.Unloading := rfl
  have hd : max 0 (completingUnloadInput.state.metrics.tankKg -
      unloadDelta completingUnloadInput.state (tickDtSec completingUnloadInput)) ≤ 1/100 := by
    norm_num [completingUnloadInput, unloadDelta, tickDtSec, createInitialState,
      defaultMachine, defaultField, max_def]
  rw [tick_unloading_done completingUnloadInput h hd]
  exact ⟨h, by norm_num [tickSpeedKmh, completingUnloadInput]⟩

/-- Claim C2 (amended): on every tick whose input status is Unloading,
throughput is forced to 0, the tank is drained by
`(unloadRateKgPerMin/60) * dtSec` floored at 0, the fill is recomputed,
and the distance, loss and area metrics are untouched.  While the tank
stays above 0.01 kg the status stays Unloading, the displayed speed is
0 and the summary is unchanged; on the tick where it falls to
≤ 0.01 kg, exactly one summary is emitted with `totalHarvestedKg` the
tank capacity, `avgLossPct` the last computed loss and `areaHa` the
cumulative area, tank and fill reset to 0, the status reverts to
Harvesting — and the displayed speed becomes the effective target speed
(not 0, the one deviation from the claim).  Starting from a full tank,
the drain completes within `capacity / (unloadRate/60)` effective
seconds plus at most one tick. -/
theorem C2_unloading_amended :
    (∀ i : TickInput, i.state.status = OperatorStatus.Unloading →
      (tick i).metrics.throughputKgPerS = 0 ∧
      (tick i).metrics.distanceM = i.state.metrics.distanceM ∧
      (tick i).metrics.lossPct = i.state.metrics.lossPct ∧
      (tick i).metrics.areaHarvestedHa = i.state.metrics.areaHarvestedHa ∧
      (¬ max 0 (i.state.metrics.tankKg - unloadDelta i.state (tickDtSec i)) ≤ 1/100 →
        (tick i).status = OperatorStatus.Unloading ∧
        (tick i).metrics.speedKmh = 0 ∧
        (tick i).metrics.tankKg =
          max 0 (i.state.metrics.tankKg - unloadDelta i.state (tickDtSec i)) ∧
        (tick i).metrics.tankFillPct =
          max 0 (i.state.metrics.tankKg - unloadDelta i.state (tickDtSec i)) /
            i.state.machine.tankCapacityKg * 100 ∧
        (tick i).summary = i.state.summary) ∧
      (max 0 (i.state.metrics.tankKg - unloadDelta i.state (tickDtSec i)) ≤ 1/100 →
        (tick i).status = OperatorStatus.Harvesting ∧
        (tick i).metrics.speedKmh = tickSpeedKmh i ∧
        (tick i).metrics.tankKg = 0 ∧
        (tick i).metrics.tankFillPct = 0 ∧
        (tick i).summary = some
          { totalHarvestedKg := i.state.machine.tankCapacityKg
            avgSpeedKmh := if i.state.metrics.distanceM > 0 then none else some 0
            avgLossPct := i.state.metrics.lossPct
            areaHa := i.state.metrics.areaHarvestedHa })) ∧
    (∀ (s : SimState) (c : Controls) (dtMs : ℚ),
      s.status = OperatorStatus.Unloading →
      s.metrics.tankKg = s.machine.tankCapacityKg →
      1/100 < s.machine.tankCapacityKg →
      0 < s.machine.unloadRateKgPerMin →
      0 < dtMs → 0 < s.timeScale →
      ∃ N : ℕ, 0 < N ∧
        (∀ k, k < N →
          (tickSeq dtMs c k s).status = OperatorStatus.Unloading ∧
          (tickSeq dtMs c k s).summary = s.summary ∧
          (tickSeq dtMs c k s).metrics.tankKg =
            s.machine.tankCapacityKg -
              k * (s.machine.unloadRateKgPerMin / 60 * (dtMs / 1000 * s.timeScale))) ∧
        (tickSeq dtMs c N s).status = OperatorStatus.Harvesting ∧
        (tickSeq dtMs c N s).metrics.tankKg = 0 ∧
        (tickSeq dtMs c N s).metrics.tankFillPct = 0 ∧
        (tickSeq dtMs c N s).summary = some
          { totalHarvestedKg := s.machine.tankCapacityKg
            avgSpeedKmh := if s.metrics.distanceM > 0 then none else some 0
            avgLossPct := s.metrics.lossPct
            areaHa := s.metrics.areaHarvestedHa } ∧
        (N : ℚ) * (dtMs / 1000 * s.timeScale) ≤
          s.machine.tankCapacityKg / (s.machine.unloadRateKgPerMin / 60) +
            dtMs / 1000 * s.timeScale) := by
  constructor
  · intro i h
    by_cases hd : max 0 (i.state.metrics.tankKg - unloadDelta i.state (tickDtSec i)) ≤ 1/100
    · rw [tick_unloading_done i h hd]
      exact ⟨rfl, rfl, rfl, rfl, fun hnd => absurd hd hnd,
        fun _ => ⟨rfl, rfl, rfl, rfl, rfl⟩⟩
    · rw [tick_unloading_not_done i h hd]
      exact ⟨rfl, rfl, rfl, rfl, fun _ => ⟨h, rfl, rfl, rfl, rfl⟩,
        fun c => absurd c hd⟩
  · exact fun s c dtMs h1 h2 h3 h4 h5 h6 => drain_sequence s c dtMs h1 h2 h3 h4 h5 h6

/-- Witness for C2: the per-tick component applied at a concrete
mid-drain input (5000 kg in the tank, one second at 3600 kg/min). -/
theorem C2_witness :
    midUnloadInput.state.status = OperatorStatus.Unloading ∧
    (tick midUnloadInput).metrics.throughputKgPerS = 0 ∧
    (tick midUnloadInput).status = OperatorStatus.Unloading ∧
    (tick midUnloadInput).metrics.tankKg = 4940 := by
  have h : midUnloadInput.state.status = OperatorStatus.Unloading := rfl
  have hnd : ¬ max 0 (midUnloadInput.state.metrics.tankKg -
      unloadDelta midUnloadInput.state (tickDtSec midUnloadInput)) ≤ 1/100 := by
    norm_num [midUnloadInput, unloadDelta, tickDtSec, createInitialState,
      defaultMachine, max_def]
  obtain ⟨ht, -, -, -, hnotdone, -⟩ := C2_unloading_amended.1 midUnloadInput h
  obtain ⟨hs, -, htank, -, -⟩ := hnotdone hnd
  refine ⟨h, ht, hs, ?_⟩
  rw [htank]
  norm_num [midUnloadInput, unloadDelta, tickDtSec, createInitialState,
    defaultMachine, max_def]

lemma tickS1_metrics (i : TickInput) : (tickS1 i).metrics = i.state.metrics := rfl

lemma capturedKgPerS_tickS1 (i : TickInput) (v : ℚ) :
    capturedKgPerS (tickS1 i) v = capturedKgPerS i.state v := rfl

lemma harvestLossPct_tickS1 (i : TickInput) (v : ℚ) :
    harvestLossPct (tickS1 i) v = harvestLossPct i.state v := rfl

lemma unloadStep_tankKg_nonneg (s : SimState) (dt : ℚ) :
    0 ≤ (unloadStep s dt).metrics.tankKg := by
  simp only [unloadStep]
  split_ifs <;> simp

lemma capturedKgPerS_nonneg (s : SimState) (v : ℚ) (hv : 0 ≤ v)
    (hw : 0 ≤ s.field.headerWidth) (hy : 0 ≤ s.machine.yieldKgPerM2)
    (hl : harvestLossPct s v ≤ 100) : 0 ≤ capturedKgPerS s v := by
  unfold capturedKgPerS potentialKgPerS kmhToMps
  have h1 : 0 ≤ v / (18/5) := by positivity
  have h2 : 0 ≤ 1 - harvestLossPct s v / 100 := by linarith
  exact mul_nonneg (mul_nonneg (mul_nonneg h1 hw) hy) h2

set_option maxHeartbeats 1000000 in
lemma tick_overfill_eval :
    (tick overfillInput).metrics.tankKg = 12999 ∧
    (tick overfillInput).metrics.tankFillPct = 12999/80 := by
  constructor <;>
    norm_num +decide [tick, tickS3, tickS2, tickS1, transitionStatus, harvestStep,
      harvestMetrics, poseStep, capturedKgPerS, potentialKgPerS, harvestLossPct,
      computeLossPct, kmhToMps, unloadStep, unloadDelta, tickDtSec, tickSpeedKmh,
      overfillInput, createInitialState, defaultField, defaultMachine, max_def, min_def]

/-- Claim C3 (counterexample): the upper half of the invariant fails.
From an input state with the tank inside [0, capacity] (7999 of
8000 kg), one running tick at 100 km/h for 100 s returns a tank mass of
12999 kg, above capacity, and a fill of 162.4875 %, above 100 — the
harvest block does not clamp the added mass and the unload block
computes the fill without clamping. -/
theorem C3_counterexample :
    0 ≤ overfillInput.state.metrics.tankKg ∧
    overfillInput.state.metrics.tankKg ≤ overfillInput.state.machine.tankCapacityKg ∧
    overfillInput.state.machine.tankCapacityKg < (tick overfillInput).metrics.tankKg ∧
    100 < (tick overfillInput).metrics.tankFillPct := by
  refine ⟨?_, ?_, ?_, ?_⟩
  · norm_num [overfillInput, createInitialState]
  · norm_num [overfillInput, createInitialState, defaultMachine]
  · rw [tick_overfill_eval.1]
    norm_num [overfillInput, createInitialState, defaultMachine]
  · rw [tick_overfill_eval.2]
    norm_num

/-- Claim C3 (amended): `tick` preserves the lower tank bound — under
non-negative speed, elapsed time, time scale, header width and yield,
and a loss not exceeding 100 %, the returned tank mass is ≥ 0 — but not
the upper bound.  The returned fill equals
`min(100, 100·mass/capacity)` on a harvesting tick that stays below
capacity, and the unclamped `100·mass/capacity` on a mid-drain
unloading tick; on the tick that reaches capacity the stored mass can
exceed the capacity (see the counterexample). -/
theorem C3_tank_amended :
    (∀ i : TickInput,
      0 ≤ i.state.metrics.tankKg →
      0 ≤ i.controls.targetSpeedKmh → 0 ≤ i.dtMs → 0 ≤ i.state.timeScale →
      0 ≤ i.state.field.headerWidth → 0 ≤ i.state.machine.yieldKgPerM2 →
      harvestLossPct i.state (tickSpeedKmh i) ≤ 100 →
      0 ≤ (tick i).metrics.tankKg) ∧
    (∀ i : TickInput, i.state.status ≠ OperatorStatus.Unloading →
      i.controls.running = true →
      i.state.metrics.tankKg + capturedKgPerS i.state (tickSpeedKmh i) * tickDtSec i <
        i.state.machine.tankCapacityKg →
      (tick i).metrics.tankKg =
        i.state.metrics.tankKg + capturedKgPerS i.state (tickSpeedKmh i) * tickDtSec i ∧
      (tick i).metrics.tankFillPct =
        min 100 ((i.state.metrics.tankKg +
            capturedKgPerS i.state (tickSpeedKmh i) * tickDtSec i) /
          i.state.machine.tankCapacityKg * 100)) ∧
    (∀ i : TickInput, i.state.status = OperatorStatus.Unloading →
      ¬ max 0 (i.state.metrics.tankKg - unloadDelta i.state (tickDtSec i)) ≤ 1/100 →
      (tick i).metrics.tankFillPct =
        max 0 (i.state.metrics.tankKg - unloadDelta i.state (tickDtSec i)) /
          i.state.machine.tankCapacityKg * 100) := by
  refine ⟨?_, ?_, ?_⟩
  · intro i h0 hv hdt hts hw hy hl
    have hdtsec : 0 ≤ tickDtSec i := by
      unfold tickDtSec; positivity
    have hvv : 0 ≤ tickSpeedKmh i := by
      unfold tickSpeedKmh
      split_ifs
      · exact hv
      · exact le_refl 0
    show 0 ≤ (tickS3 i).metrics.tankKg
    simp only [tickS3]
    split_ifs with h3
    · exact unloadStep_tankKg_nonneg _ _
    · simp only [tickS2]
      split_ifs with h2
      · rw [harvestStep_tankKg]
        have hcap : 0 ≤ capturedKgPerS (tickS1 i) (tickSpeedKmh i) := by
          rw [capturedKgPerS_tickS1]
          exact capturedKgPerS_nonneg i.state (tickSpeedKmh i) hvv hw hy hl
        rw [tickS1_metrics]
        nlinarith [mul_nonneg hcap hdtsec]
      · rw [tickS1_metrics] at *
        exact h0
  · intro i hst hrun hlt
    have h1 : tickS1 i = { i.state with status := OperatorStatus.Harvesting } := by
      simp [tickS1, transitionStatus, hrun, hst]
    have h2 : tickS2 i = harvestStep (tickS1 i) (tickSpeedKmh i) (tickDtSec i) := by
      simp [tickS2, h1, hrun]
    have hst2 : (tickS2 i).status ≠ OperatorStatus.Unloading := by
      rw [h2, harvestStep_status]
      rw [capturedKgPerS_tickS1, tickS1_metrics, tickS1_machine]
      split_ifs with hc1 hc2
      · exact absurd hc1 (not_le.2 hlt)
      · simp
      · rw [h1]; simp
    have h3 : tickS3 i = tickS2 i := by simp [tickS3, hst2]
    constructor
    · show (tickS3 i).metrics.tankKg = _
      rw [h3, h2, harvestStep_tankKg, tickS1_metrics, capturedKgPerS_tickS1]
    · show (tickS3 i).metrics.tankFillPct = _
      rw [h3, h2, harvestStep_tankFillPct, tickS1_metrics, capturedKgPerS_tickS1,
        tickS1_machine]
  · intro i h hnd
    rw [tick_unloading_not_done i h hnd]

/-- Witness for C3: the lower-bound component applied at the initial
state running at 5 km/h for one second. -/
theorem C3_witness :
    0 ≤ (tick ⟨1000, createInitialState, ⟨5, true⟩⟩).metrics.tankKg := by
  refine C3_tank_amended.1 ⟨1000, createInitialState, ⟨5, true⟩⟩ ?_ ?_ ?_ ?_ ?_ ?_ ?_
  · norm_num [createInitialState]
  · norm_num
  · norm_num
  · norm_num [createInitialState]
  · norm_num [createInitialState, defaultField]
  · norm_num [createInitialState, defaultMachine]
  · norm_num [harvestLossPct, computeLossPct, tickSpeedKmh, createInitialState,
      defaultMachine]

set_option maxHeartbeats 4000000 in
lemma tick_c6_first_eval :
    (tick ⟨1000000, createInitialState, ⟨5, true⟩⟩).metrics.tankFillPct = 2475/32 := by
  norm_num +decide [tick, tickS3, tickS2, tickS1, transitionStatus, harvestStep,
    harvestMetrics, poseStep, capturedKgPerS, potentialKgPerS, harvestLossPct,
    computeLossPct, kmhToMps, unloadStep, unloadDelta, tickDtSec, tickSpeedKmh,
    createInitialState, defaultField, defaultMachine, max_def, min_def]

set_option maxHeartbeats 4000000 in
lemma tick_c6_second_eval :
    (tick ⟨400000, tick ⟨1000000, createInitialState, ⟨5, true⟩⟩, ⟨5, true⟩⟩).status =
      OperatorStatus.Harvesting ∧
    (tick ⟨400000, tick ⟨1000000, createInitialState, ⟨5, true⟩⟩,
        ⟨5, true⟩⟩).metrics.tankFillPct = 0 := by
  constructor <;>
    norm_num +decide [tick, tickS3, tickS2, tickS1, transitionStatus, harvestStep,
      harvestMetrics, poseStep, capturedKgPerS, potentialKgPerS, harvestLossPct,
      computeLossPct, kmhToMps, unloadStep, unloadDelta, tickDtSec, tickSpeedKmh,
      createInitialState, defaultField, defaultMachine, max_def, min_def]

/-- Claim C6 (counterexample): the fill percentage is not non-decreasing
on every running tick that ends Harvesting.  In a two-tick run from the
initial state at 5 km/h (1000 s, then 400 s), the second tick fills the
tank past capacity, unloads and completes within the same tick, ending
with status Harvesting, running = true and fill 0 — strictly below the
77.34 % reached after the first tick. -/
theorem C6_counterexample :
    (tick ⟨1000000, createInitialState, ⟨5, true⟩⟩).metrics.tankFillPct = 2475/32 ∧
    (tick ⟨400000, tick ⟨1000000, createInitialState, ⟨5, true⟩⟩, ⟨5, true⟩⟩).status =
      OperatorStatus.Harvesting ∧
    (tick ⟨400000, tick ⟨1000000, createInitialState, ⟨5, true⟩⟩,
        ⟨5, true⟩⟩).metrics.tankFillPct = 0 ∧
    (0 : ℚ) < 2475/32 :=
  ⟨tick_c6_first_eval, tick_c6_second_eval.1, tick_c6_second_eval.2, by norm_num⟩

/-- Claim C6 (amended): with a consistent input fill, tank fill % is
non-decreasing across a running tick that starts outside Unloading and
stays below capacity (such a tick ends Harvesting or Alarm), and
non-increasing across a tick that starts Unloading with the tank inside
[0, capacity].  The restriction to below-capacity harvesting ticks and
in-range unloading starts is forced by the counterexample: a tick that
rolls through fill-unload-complete ends Harvesting with fill 0. -/
theorem C6_fill_monotone_amended :
    (∀ i : TickInput,
      i.state.status ≠ OperatorStatus.Unloading →
      i.controls.running = true →
      i.state.metrics.tankFillPct =
        min 100 (i.state.metrics.tankKg / i.state.machine.tankCapacityKg * 100) →
      0 ≤ i.state.metrics.tankKg →
      0 < i.state.machine.tankCapacityKg →
      0 ≤ i.controls.targetSpeedKmh → 0 ≤ i.dtMs → 0 ≤ i.state.timeScale →
      0 ≤ i.state.field.headerWidth → 0 ≤ i.state.machine.yieldKgPerM2 →
      harvestLossPct i.state (tickSpeedKmh i) ≤ 100 →
      i.state.metrics.tankKg + capturedKgPerS i.state (tickSpeedKmh i) * tickDtSec i <
        i.state.machine.tankCapacityKg →
      ((tick i).status = OperatorStatus.Harvesting ∨
        (tick i).status = OperatorStatus.Alarm) ∧
      i.state.metrics.tankFillPct ≤ (tick i).metrics.tankFillPct) ∧
    (∀ i : TickInput,
      i.state.status = OperatorStatus.Unloading →
      0 ≤ i.state.metrics.tankKg →
      i.state.metrics.tankKg ≤ i.state.machine.tankCapacityKg →
      i.state.metrics.tankFillPct =
        i.state.metrics.tankKg / i.state.machine.tankCapacityKg * 100 →
      0 < i.state.machine.tankCapacityKg →
      0 ≤ unloadDelta i.state (tickDtSec i) →
      (tick i).metrics.tankFillPct ≤ i.state.metrics.tankFillPct) := by
  constructor
  · intro i hst hrun hfill htk hcap hv hdt hts hw hy hl hlt
    have hvv : 0 ≤ tickSpeedKmh i := by
      simp [tickSpeedKmh, hrun, hv]
    have hdtsec : 0 ≤ tickDtSec i := by unfold tickDtSec; positivity
    have hgain : 0 ≤ capturedKgPerS i.state (tickSpeedKmh i) * tickDtSec i :=
      mul_nonneg (capturedKgPerS_nonneg i.state (tickSpeedKmh i) hvv hw hy hl) hdtsec
    have h1 : tickS1 i = { i.state with status := OperatorStatus.Harvesting } := by
      simp [tickS1, transitionStatus, hrun, hst]
    have h2 : tickS2 i = harvestStep (tickS1 i) (tickSpeedKmh i) (tickDtSec i) := by
      simp [tickS2, h1, hrun]
    have hstat2 : (tickS2 i).status = OperatorStatus.Harvesting ∨
        (tickS2 i).status = OperatorStatus.Alarm := by
      rw [h2, harvestStep_status, capturedKgPerS_tickS1, tickS1_metrics, tickS1_machine]
      split_ifs with hc1 hc2
      · exact absurd hc1 (not_le.2 hlt)
      · exact Or.inr rfl
      · rw [h1]; exact Or.inl rfl
    have hst2 : (tickS2 i).status ≠ OperatorStatus.Unloading := by
      rcases hstat2 with h | h <;> simp [h]
    have h3 : tickS3 i = tickS2 i := by simp [tickS3, hst2]
    constructor
    · have : (tick i).status = (tickS2 i).status := by
        show (tickS3 i).status = _
        rw [h3]
      rw [this]
      exact hstat2
    · have hfill2 : (tick i).metrics.tankFillPct =
          min 100 ((i.state.metrics.tankKg +
              capturedKgPerS i.state (tickSpeedKmh i) * tickDtSec i) /
            i.state.machine.tankCapacityKg * 100) := by
        show (tickS3 i).metrics.tankFillPct = _
        rw [h3, h2, harvestStep_tankFillPct, tickS1_metrics, capturedKgPerS_tickS1,
          tickS1_machine]
      rw [hfill2, hfill]
      refine min_le_min (le_refl 100) ?_
      gcongr
      linarith
  · intro i hst htk hcap hfill hcappos hδ
    by_cases hd : max 0 (i.state.metrics.tankKg - unloadDelta i.state (tickDtSec i)) ≤ 1/100
    · rw [tick_unloading_done i hst hd]
      show (0:ℚ) ≤ i.state.metrics.tankFillPct
      rw [hfill]
      positivity
    · rw [tick_unloading_not_done i hst hd]
      show max 0 (i.state.metrics.tankKg - unloadDelta i.state (tickDtSec i)) /
          i.state.machine.tankCapacityKg * 100 ≤ i.state.metrics.tankFillPct
      rw [hfill]
      have ht1 : max 0 (i.state.metrics.tankKg - unloadDelta i.state (tickDtSec i)) ≤
          i.state.metrics.tankKg := max_le htk (by linarith)
      gcongr

/-- Witness for C6: the harvesting component applied at the initial
state running at 5 km/h for one second. -/
theorem C6_witness :
    ((tick ⟨1000, createInitialState, ⟨5, true⟩⟩).status = OperatorStatus.Harvesting ∨
      (tick ⟨1000, createInitialState, ⟨5, true⟩⟩).status = OperatorStatus.Alarm) ∧
    createInitialState.metrics.tankFillPct ≤
      (tick ⟨1000, createInitialState, ⟨5, true⟩⟩).metrics.tankFillPct := by
  refine C6_fill_monotone_amended.1 ⟨1000, createInitialState, ⟨5, true⟩⟩
    ?_ ?_ ?_ ?_ ?_ ?_ ?_ ?_ ?_ ?_ ?_ ?_
  · simp [createInitialState]
  · norm_num
  · norm_num [createInitialState, defaultMachine, min_def]
  · norm_num [createInitialState]
  · norm_num [createInitialState, defaultMachine]
  · norm_num
  · norm_num
  · norm_num [createInitialState]
  · norm_num [createInitialState, defaultField]
  · norm_num [createInitialState, defaultMachine]
  · norm_num [harvestLossPct, computeLossPct, tickSpeedKmh, createInitialState,
      defaultMachine]
  · norm_num [capturedKgPerS, potentialKgPerS, harvestLossPct, computeLossPct,
      kmhToMps, tickSpeedKmh, tickDtSec, createInitialState, defaultField,
      defaultMachine]

lemma followWalk_fst_lt (lens : List ℚ) (fuel : ℕ) :
    ∀ (laneIndex : ℕ) (d : ℚ), laneIndex < lens.length →
      (followWalk lens laneIndex d fuel).1 < lens.length := by
  induction fuel with
  | zero => intro laneIndex d h; exact h
  | succ fuel ih =>
    intro laneIndex d h
    simp only [followWalk]
    split_ifs with hc
    · exact ih (laneIndex + 1) _ (by omega)
    · exact h

lemma followWalk_snd_nonneg (lens : List ℚ) (fuel : ℕ) :
    ∀ (laneIndex : ℕ) (d : ℚ), 0 ≤ d →
      0 ≤ (followWalk lens laneIndex d fuel).2 := by
  induction fuel with
  | zero => intro laneIndex d h; exact h
  | succ fuel ih =>
    intro laneIndex d h
    simp only [followWalk]
    split_ifs with hc
    · exact ih _ _ (by linarith [hc.1])
    · exact h

lemma followWalk_stop (lens : List ℚ) (fuel : ℕ) :
    ∀ (laneIndex : ℕ) (d : ℚ), lens.length - laneIndex ≤ fuel →
      ¬ ((followWalk lens laneIndex d fuel).2 >
            lens.getD (followWalk lens laneIndex d fuel).1 0 ∧
         (followWalk lens laneIndex d fuel).1 < lens.length - 1) := by
  induction fuel with
  | zero =>
    intro laneIndex d h
    simp only [followWalk]
    rintro ⟨-, hlt⟩
    omega
  | succ fuel ih =>
    intro laneIndex d h
    simp only [followWalk]
    split_ifs with hc
    · exact ih _ _ (by omega)
    · exact hc

/-- Claim C8 (counterexample): the returned `distM` accumulator is not
clamped to the current lane's length.  On a single lane of length 10 m,
one running step at 3600 km/h accumulates 200 m: the follower returns
`laneIndex = 0` with `distM = 200 > 10`, while only the displayed
position's arc distance is clamped, to the endpoint 10. -/
theorem C8_counterexample :
    laneSimStep [10] ⟨0, 0⟩ true 3600 1 200 = (⟨0, 200⟩, 10) ∧ (10 : ℚ) < 200 := by
  constructor
  · norm_num [laneSimStep, followWalk, max_def, min_def]
  · norm_num

/-- Claim C8 (amended): a follower step on a non-empty lane list with
an in-range input returns `laneIndex < lanes.length` always, a
non-negative `distM` that is within the current lane's length whenever
the current lane is not the final one, and a displayed arc position
clamped to `[0, currentLaneLength]`; when the travel distance exceeds
the final lane's length the follower holds the index at the final lane
and the displayed position at that lane's endpoint, while the raw
`distM` accumulator itself is not clamped (see the counterexample). -/
theorem C8_follower_amended :
    ∀ (lens : List ℚ) (st : LaneSimState) (running : Bool)
      (speedKmh timeScale dtMs : ℚ) (r : LaneSimState) (a : ℚ),
      laneSimStep lens st running speedKmh timeScale dtMs = (r, a) →
      st.laneIndex < lens.length →
      0 ≤ st.distM →
      (∀ l ∈ lens, 0 ≤ l) →
      0 ≤ speedKmh → 0 ≤ timeScale → 0 ≤ dtMs →
      r.laneIndex < lens.length ∧
      0 ≤ r.distM ∧
      (r.laneIndex < lens.length - 1 → r.distM ≤ lens.getD r.laneIndex 0) ∧
      0 ≤ a ∧ a ≤ lens.getD r.laneIndex 0 ∧
      (lens.getD r.laneIndex 0 < r.distM →
        r.laneIndex = lens.length - 1 ∧ a = lens.getD r.laneIndex 0) := by
  intro lens st running v ts dt r a heq hidx hd hlens hv hts hdt
  simp only [laneSimStep] at heq
  injection heq with h1 h2
  subst h1
  subst h2
  have hdpos : 0 ≤ (if running = true then
      st.distM + v / (18/5) * ts * (min dt 200) / 1000 else st.distM) := by
    split_ifs
    · have hmin : 0 ≤ min dt 200 := le_min hdt (by norm_num)
      have h5 : 0 ≤ v / (18/5) * ts * (min dt 200) / 1000 := by
        apply div_nonneg _ (by norm_num)
        exact mul_nonneg (mul_nonneg (div_nonneg hv (by norm_num)) hts) hmin
      linarith
    · exact hd
  generalize hDdef : (if running = true then
      st.distM + v / (18/5) * ts * (min dt 200) / 1000 else st.distM) = D at hdpos ⊢
  have q1 : (followWalk lens st.laneIndex D lens.length).1 < lens.length :=
    followWalk_fst_lt lens lens.length st.laneIndex D hidx
  have q2 : 0 ≤ (followWalk lens st.laneIndex D lens.length).2 :=
    followWalk_snd_nonneg lens lens.length st.laneIndex D hdpos
  have q3 := followWalk_stop lens lens.length st.laneIndex D (by omega)
  have hlen0 : 0 ≤ lens.getD (followWalk lens st.laneIndex D lens.length).1 0 := by
    have hmem : lens.getD (followWalk lens st.laneIndex D lens.length).1 0 ∈ lens := by
      rw [List.getD_eq_getElem lens 0 q1]
      exact List.getElem_mem q1
    exact hlens _ hmem
  refine ⟨q1, q2, ?_, le_max_left 0 _, max_le hlen0 (min_le_left _ _), ?_⟩
  · intro hlt
    by_contra hgt
    exact q3 ⟨lt_of_not_le hgt, hlt⟩
  · intro hexceed
    have hw1 : (followWalk lens st.laneIndex D lens.length).1 = lens.length - 1 := by
      rcases Nat.lt_or_ge (followWalk lens st.laneIndex D lens.length).1
          (lens.length - 1) with hlt | hge
      · exact absurd ⟨hexceed, hlt⟩ q3
      · omega
    refine ⟨hw1, ?_⟩
    rw [min_eq_left hexceed.le, max_eq_right hlen0]

/-- Witness for C8: the step applied on two lanes of lengths 10 and
20 m from 5 m into lane 0 at 36 km/h for 100 ms. -/
theorem C8_witness :
    (⟨0, (6:ℚ)⟩ : LaneSimState).laneIndex < ([10, 20] : List ℚ).length ∧
    (0:ℚ) ≤ (⟨0, (6:ℚ)⟩ : LaneSimState).distM ∧
    (6:ℚ) ≤ ([10, 20] : List ℚ).getD (⟨0, (6:ℚ)⟩ : LaneSimState).laneIndex 0 := by
  have heq : laneSimStep [10, 20] ⟨0, 5⟩ true 36 1 100 = (⟨0, 6⟩, 6) := by
    norm_num [laneSimStep, followWalk, max_def, min_def]
  obtain ⟨c1, c2, -, -, c5, -⟩ :=
    C8_follower_amended [10, 20] ⟨0, 5⟩ true 36 1 100 ⟨0, 6⟩ 6 heq
      (by norm_num) (by norm_num)
      (by
        intro l hl
        simp only [List.mem_cons, List.mem_singleton] at hl
        rcases hl with rfl | rfl | h
        · norm_num
        · norm_num
        · simp at h)
      (by norm_num) (by norm_num) (by norm_num)
  exact ⟨c1, c2, c5⟩

lemma filterMap_eq_map_of {α β : Type} (f : α → Option β) (g : α → β) (l : List α)
    (h : ∀ x ∈ l, f x = some (g x)) : l.filterMap f = l.map g := by
  induction l with
  | nil => rfl
  | cons x xs ih =>
    simp only [List.filterMap_cons, List.map_cons]
    rw [h x (List.mem_cons_self x xs)]
    rw [ih (fun y hy => h y (List.mem_cons_of_mem x hy))]

/-- Closed form of the clipped-offset list on a rectangle: with `m` the
number of positive offsets whose lane still meets the rectangle
(`m * header < H/2 < (m+1) * header`), exactly the offsets
`-m .. m` contribute, each a full-width west-to-east segment, in
ascending `y` order. -/
lemma rectLanes_inner_closed (x0 y0 W H header minSeg : ℚ) (m N : ℕ)
    (hh : 0 < header) (hW : minSeg ≤ W)
    (hm1 : (m : ℚ) * header < H / 2)
    (hm2 : H / 2 < ((m : ℚ) + 1) * header)
    (hmN : m ≤ N) :
    (laneOffsets N).filterMap (rectClipLane x0 y0 W H header minSeg) =
      (List.range (2*m+1)).map (fun k =>
        [⟨x0, (y0 + H/2) + ((k : ℚ) - m) * header⟩,
         ⟨x0 + W, (y0 + H/2) + ((k : ℚ) - m) * header⟩]) := by
  have h2N : 2*N+1 = (N-m) + ((2*m+1) + (N-m)) := by omega
  have hP1 : (List.map (fun k : ℕ => -(N : ℤ) + (k : ℤ)) (List.range (N - m))).filterMap
      (rectClipLane x0 y0 W H header minSeg) = [] := by
    rw [List.filterMap_eq_nil_iff]
    intro i hi
    simp only [List.mem_map, List.mem_range] at hi
    obtain ⟨k, hk, rfl⟩ := hi
    simp only [rectClipLane]
    split_ifs with hcond
    · exfalso
      obtain ⟨c1, -, -⟩ := hcond
      have hk1 : ((k : ℚ) + m) + 1 ≤ N := by exact_mod_cast (by omega : k + m + 1 ≤ N)
      have hcast : ((-(N : ℤ) + (k : ℤ) : ℤ) : ℚ) = -(N : ℚ) + k := by push_cast; ring
      rw [hcast] at c1
      nlinarith
    · rfl
  have hP3 : (List.map (fun k : ℕ => -(N : ℤ) + ↑((N - m) + ((2*m+1) + k)))
      (List.range (N - m))).filterMap (rectClipLane x0 y0 W H header minSeg) = [] := by
    rw [List.filterMap_eq_nil_iff]
    intro i hi
    simp only [List.mem_map, List.mem_range] at hi
    obtain ⟨k, hk, rfl⟩ := hi
    simp only [rectClipLane]
    split_ifs with hcond
    · exfalso
      obtain ⟨-, c2, -⟩ := hcond
      have hcast : ((-(N : ℤ) + ↑((N - m) + ((2*m+1) + k)) : ℤ) : ℚ) =
          (m : ℚ) + 1 + k := by
        push_cast [Nat.cast_sub hmN]
        ring
      rw [hcast] at c2
      have hk0 : (0 : ℚ) ≤ (k : ℚ) := Nat.cast_nonneg k
      nlinarith
    · rfl
  have hP2 : (List.map (fun k : ℕ => -(N : ℤ) + ↑((N - m) + k))
      (List.range (2*m+1))).filterMap (rectClipLane x0 y0 W H header minSeg) =
      (List.range (2*m+1)).map (fun k =>
        [⟨x0, (y0 + H/2) + ((k : ℚ) - m) * header⟩,
         ⟨x0 + W, (y0 + H/2) + ((k : ℚ) - m) * header⟩]) := by
    rw [List.filterMap_map]
    refine filterMap_eq_map_of _ _ _ ?_
    intro k hk
    simp only [List.mem_range] at hk
    have hcast : ((-(N : ℤ) + ↑((N - m) + k) : ℤ) : ℚ) = (k : ℚ) - m := by
      push_cast [Nat.cast_sub hmN]
      ring
    have hk2m : (k : ℚ) ≤ 2*m := by exact_mod_cast (by omega : k ≤ 2*m)
    have hk0 : (0 : ℚ) ≤ (k : ℚ) := Nat.cast_nonneg k
    simp only [Function.comp_apply, rectClipLane]
    rw [hcast]
    split_ifs with hcond
    · rfl
    · exfalso
      apply hcond
      refine ⟨by nlinarith, by nlinarith, hW⟩
  rw [laneOffsets, h2N, List.range_add, List.range_add]
  simp only [List.map_append, List.map_map, List.filterMap_append, Function.comp_def]
  rw [hP1, hP2, hP3]
  simp

/-- Boustrophedon of a lane list given as a map over `List.range`. -/
lemma boustrophedon_of_map_range (n : ℕ) (g : ℕ → List Pt) :
    boustrophedon ((List.range n).map g) =
      (List.range n).map (fun k => if k % 2 = 1 then (g k).reverse else g k) := by
  unfold boustrophedon
  rw [List.length_map, List.length_range]
  refine List.map_congr_left ?_
  intro i hi
  have hi' : i < n := List.mem_range.1 hi
  have hget : ((List.range n).map g).getD i [] = g i := by
    rw [List.getD_eq_getElem _ _ (by simpa using hi')]
    rw [List.getElem_map, List.getElem_range]
  rw [hget]

/-- Closed form of `generateLanesRect`: the `2*m+1` full-width lanes in
ascending `y` order, every odd-indexed one reversed. -/
lemma generateLanesRect_closed (x0 y0 W H header minSeg : ℚ) (m N : ℕ)
    (hh : 0 < header) (hW : minSeg ≤ W)
    (hm1 : (m : ℚ) * header < H / 2)
    (hm2 : H / 2 < ((m : ℚ) + 1) * header)
    (hmN : m ≤ N) :
    generateLanesRect x0 y0 W H header minSeg N =
      (List.range (2*m+1)).map (fun k =>
        if k % 2 = 1 then
          [⟨x0 + W, (y0 + H/2) + ((k : ℚ) - m) * header⟩,
           ⟨x0, (y0 + H/2) + ((k : ℚ) - m) * header⟩]
        else
          [⟨x0, (y0 + H/2) + ((k : ℚ) - m) * header⟩,
           ⟨x0 + W, (y0 + H/2) + ((k : ℚ) - m) * header⟩]) := by
  unfold generateLanesRect
  rw [rectLanes_inner_closed x0 y0 W H header minSeg m N hh hW hm1 hm2 hmN]
  rw [boustrophedon_of_map_range]
  refine List.map_congr_left ?_
  intro k hk
  split_ifs with hpar
  · rfl
  · rfl

lemma getD_map_range {α : Type} (n : ℕ) (g : ℕ → α) (d : α) (j : ℕ) (hj : j < n) :
    ((List.range n).map g).getD j d = g j := by
  rw [List.getD_eq_getElem _ _ (by simpa using hj)]
  rw [List.getElem_map, List.getElem_range]

/-- Claim C7 (counterexample): the lane count is not `floor(H/h)`.  On
the 30 × 41 m rectangle with 10 m header width the generator scans
offsets symmetrically around the centroid baseline, so it produces the
centre lane plus two lanes on each side — 5 lanes — while
`floor(41/10) = 4`; the count from the source's algorithm is always odd
for a rectangle and cannot equal an even `floor(H/h)`. -/
theorem C7_counterexample :
    (generateLanesRect 0 0 30 41 10 10 400).length = 5 ∧
    Int.floor ((41 : ℚ) / 10) = 4 ∧ (5 : ℕ) ≠ 4 := by
  refine ⟨?_, ?_, by norm_num⟩
  · rw [generateLanesRect_closed 0 0 30 41 10 10 2 400 (by norm_num) (by norm_num)
      (by norm_num) (by norm_num) (by norm_num)]
    simp
  · norm_num [Int.floor_eq_iff]

/-- Claim C7 (amended): on an axis-aligned rectangle of extents
`W × H` with `W < H` (so the bbox heuristic picks bearing 90) and no
offset tie (`m*h < H/2 < (m+1)*h`), `generateLanes` produces `2*m + 1`
lanes — the centroid lane plus `m` on each side, an odd count, not
`floor(H/h)` in general — each lane fully inside the rectangle, with
every odd-indexed lane's coordinate order reversed so consecutive
lanes' x-coordinate lists are reversals of each other, and each lane's
start exactly one header width from the previous lane's end. -/
theorem C7_lanes_amended :
    ∀ (x0 y0 W H header minSeg : ℚ) (m N : ℕ),
      0 < header → 0 ≤ W → minSeg ≤ W → W < H → W ≤ 20000 →
      (m : ℚ) * header < H / 2 → H / 2 < ((m : ℚ) + 1) * header → m ≤ N →
      (generateLanesRect x0 y0 W H header minSeg N).length = 2*m+1 ∧
      (∀ lane ∈ generateLanesRect x0 y0 W H header minSeg N, ∀ p ∈ lane,
        x0 ≤ p.x ∧ p.x ≤ x0 + W ∧ y0 < p.y ∧ p.y < y0 + H) ∧
      (∀ k, k + 1 < 2*m+1 →
        ((generateLanesRect x0 y0 W H header minSeg N).getD (k+1) []).map Pt.x =
          (((generateLanesRect x0 y0 W H header minSeg N).getD k []).map Pt.x).reverse ∧
        (laneStart ((generateLanesRect x0 y0 W H header minSeg N).getD (k+1) [])).x =
          (laneEnd ((generateLanesRect x0 y0 W H header minSeg N).getD k [])).x ∧
        (laneStart ((generateLanesRect x0 y0 W H header minSeg N).getD (k+1) [])).y -
          (laneEnd ((generateLanesRect x0 y0 W H header minSeg N).getD k [])).y =
            header) := by
  intro x0 y0 W H header minSeg m N hh hW0 hW hWH hW2 hm1 hm2 hmN
  rw [generateLanesRect_closed x0 y0 W H header minSeg m N hh hW hm1 hm2 hmN]
  refine ⟨by simp, ?_, ?_⟩
  · intro lane hlane p hp
    simp only [List.mem_map, List.mem_range] at hlane
    obtain ⟨k, hk, rfl⟩ := hlane
    have hk0 : (0 : ℚ) ≤ (k : ℚ) := Nat.cast_nonneg k
    have hk2m : (k : ℚ) ≤ 2*m := by exact_mod_cast (by omega : k ≤ 2*m)
    have hyb1 : y0 < (y0 + H/2) + ((k : ℚ) - m) * header := by nlinarith
    have hyb2 : (y0 + H/2) + ((k : ℚ) - m) * header < y0 + H := by nlinarith
    by_cases hp2 : k % 2 = 1 <;>
      simp only [hp2, if_true, if_false, List.mem_cons, List.not_mem_nil, or_false,
        reduceIte] at hp <;>
      rcases hp with rfl | rfl <;>
      exact ⟨by linarith, by linarith, hyb1, hyb2⟩
  · intro k hk1
    have hget := getD_map_range (2*m+1) (fun k =>
        if k % 2 = 1 then
          [(⟨x0 + W, (y0 + H/2) + ((k : ℚ) - m) * header⟩ : Pt),
           ⟨x0, (y0 + H/2) + ((k : ℚ) - m) * header⟩]
        else
          [⟨x0, (y0 + H/2) + ((k : ℚ) - m) * header⟩,
           ⟨x0 + W, (y0 + H/2) + ((k : ℚ) - m) * header⟩]) []
    rw [hget (k+1) hk1, hget k (by omega)]
    have hcast : ((k + 1 : ℕ) : ℚ) = (k : ℚ) + 1 := by push_cast; ring
    rcases Nat.mod_two_eq_zero_or_one k with hp | hp
    · have hp1 : (k + 1) % 2 = 1 := by omega
      simp only [hp, hp1, if_true, if_false, reduceIte, one_ne_zero]
      refine ⟨by simp, by simp [laneStart, laneEnd], ?_⟩
      simp [laneStart, laneEnd, hcast]
      try ring
    · have hp1 : (k + 1) % 2 = 0 := by omega
      simp only [hp, hp1, if_true, if_false, reduceIte, one_ne_zero]
      refine ⟨by simp, by simp [laneStart, laneEnd], ?_⟩
      simp [laneStart, laneEnd, hcast]
      try ring

/-- Witness for C7: the amended theorem applied to the 30 × 41 m
rectangle with 10 m header width and the default 400-offset cap. -/
theorem C7_witness :
    (generateLanesRect 0 0 30 41 10 10 400).length = 2*2+1 ∧
    ((generateLanesRect 0 0 30 41 10 10 400).getD 1 []).map Pt.x =
      (((generateLanesRect 0 0 30 41 10 10 400).getD 0 []).map Pt.x).reverse := by
  obtain ⟨hlen, -, hbou⟩ :=
    C7_lanes_amended 0 0 30 41 10 10 2 400 (by norm_num) (by norm_num) (by norm_num)
      (by norm_num) (by norm_num) (by norm_num) (by norm_num) (by norm_num)
  exact ⟨hlen, (hbou 0 (by norm_num)).1⟩

/-- Claim C9: `tick` is pure — its only effect is the returned state
(immediate in this embedding, and ensured in the source by
`structuredClone`), and the field and machine configurations carried in
the returned state are identical to those of the input state. -/
theorem C9_tick_pure_config (i : TickInput) :
    (tick i).field = i.state.field ∧ (tick i).machine = i.state.machine :=
  ⟨tick_field i, tick_machine i⟩

/-- Claim C5: with `running = false` and an input status other than
Unloading, `tick` returns exactly the input state with status Idle and
displayed speed 0 — all other metrics, the pose, the lane bookkeeping
and the summary are untouched (the movement and harvest steps are
skipped). -/
theorem C5_not_running_idle (i : TickInput) (hrun : i.controls.running = false)
    (hst : i.state.status ≠ OperatorStatus.Unloading) :
    tick i = { i.state with
                 status := OperatorStatus.Idle
                 metrics := { i.state.metrics with speedKmh := 0 } } := by
  have h1 : tickS1 i = { i.state with status := OperatorStatus.Idle } := by
    simp [tickS1, transitionStatus, hrun, hst]
  have h2 : tickS2 i = tickS1 i := by
    simp [tickS2, hrun]
  have h3 : tickS3 i = tickS2 i := by
    simp [tickS3, h2, h1]
  simp [tick, h3, h2, h1, tickSpeedKmh, hrun]

/-- Witness for C5 at a concrete input: the initial state, not running. -/
theorem C5_witness :
    tick ⟨100, createInitialState, ⟨11/2, false⟩⟩ =
      { createInitialState with
          status := OperatorStatus.Idle
          metrics := { createInitialState.metrics with speedKmh := 0 } } :=
  C5_not_running_idle ⟨100, createInitialState, ⟨11/2, false⟩⟩ rfl (by
    intro h
    simp [createInitialState] at h)

/-- Claim C10: whenever a tick emits a summary (the returned summary
differs from the input's), that summary's `avgSpeedKmh` is the
undefined value (`none`) if the cumulative distance is positive, and it
is the number 0 only when no distance has been travelled. -/
theorem C10_summary_avgSpeed (i : TickInput)
    (h : (tick i).summary ≠ i.state.summary) :
    ∃ sm, (tick i).summary = some sm ∧
      ((tick i).metrics.distanceM > 0 → sm.avgSpeedKmh = none) ∧
      (sm.avgSpeedKmh = some 0 → ¬ (tick i).metrics.distanceM > 0) := by
  rw [tick_summary] at h ⊢
  rw [tick_distanceM]
  simp only [tickS3] at h ⊢
  split_ifs at h ⊢ with hcond
  · by_cases hdone :
      max 0 ((tickS2 i).metrics.tankKg - unloadDelta (tickS2 i) (tickDtSec i)) ≤ 1/100
    · obtain ⟨-, -, -, hsm⟩ := unloadStep_done (tickS2 i) (tickDtSec i) hdone
      rw [hsm, unloadStep_distanceM]
      refine ⟨_, rfl, ?_, ?_⟩
      · intro hpos
        simp [if_pos hpos]
      · intro hzero hpos
        rw [if_pos hpos] at hzero
        exact Option.noConfusion hzero
    · obtain ⟨-, -, -, hsm⟩ := unloadStep_not_done (tickS2 i) (tickDtSec i) hdone
      rw [hsm, tickS2_summary] at h
      exact absurd rfl h
  · rw [tickS2_summary] at h
    exact absurd rfl h

lemma tick_unloadDemo_summary :
    (tick unloadDemoInput).summary =
      some { totalHarvestedKg := 8000, avgSpeedKmh := none, avgLossPct := 4/5, areaHa := 0 } := by
  norm_num [tick, tickS3, tickS2, tickS1, transitionStatus, unloadStep, unloadDelta,
    tickDtSec, tickSpeedKmh, unloadDemoInput, unloadDemoState, createInitialState,
    defaultField, defaultMachine, max_def, min_def]

/-- Witness for C10: a concrete unloading tick that empties the tank
after 500 m of travel emits a summary, and the theorem applies to it. -/
theorem C10_witness :
    (tick unloadDemoInput).summary ≠ unloadDemoInput.state.summary ∧
    ∃ sm, (tick unloadDemoInput).summary = some sm ∧
      ((tick unloadDemoInput).metrics.distanceM > 0 → sm.avgSpeedKmh = none) ∧
      (sm.avgSpeedKmh = some 0 → ¬ (tick unloadDemoInput).metrics.distanceM > 0) := by
  have hne : (tick unloadDemoInput).summary ≠ unloadDemoInput.state.summary := by
    rw [tick_unloadDemo_summary]
    simp [unloadDemoInput, unloadDemoState, createInitialState]
  exact ⟨hne, C10_summary_avgSpeed unloadDemoInput hne⟩

set_option maxHeartbeats 2000000 in
lemma computeLossPct_mono {u w : ℚ} (huw : u ≤ w) :
    computeLossPct u 6 8 ≤ computeLossPct w 6 8 := by
  unfold computeLossPct
  simp only [min_def]
  split_ifs <;>
    first
      | linarith
      | nlinarith [sq_nonneg (u - 6), sq_nonneg (w - 6), sq_nonneg (7 - u), sq_nonneg (7 - w),
          sq_nonneg (w - u), sq_nonneg (u + w - 12)]

set_option maxHeartbeats 2000000 in
lemma computeLossPct_lip_le {u w : ℚ} (huw : u ≤ w) :
    computeLossPct w 6 8 - computeLossPct u 6 8 ≤ 2 * (w - u) := by
  unfold computeLossPct
  simp only [min_def]
  split_ifs <;>
    first
      | linarith
      | nlinarith [sq_nonneg (u - 6), sq_nonneg (w - 6), sq_nonneg (7 - u), sq_nonneg (7 - w),
          sq_nonneg (w - u), sq_nonneg (u + w - 12)]

lemma computeLossPct_abs_lip (u w : ℚ) :
    |computeLossPct w 6 8 - computeLossPct u 6 8| ≤ 2 * |w - u| := by
  rcases le_total u w with h | h
  · rw [abs_of_nonneg (by linarith [computeLossPct_mono h]),
      abs_of_nonneg (by linarith : (0:ℚ) ≤ w - u)]
    exact computeLossPct_lip_le h
  · rw [abs_of_nonpos (by linarith [computeLossPct_mono h]),
      abs_of_nonpos (by linarith : w - u ≤ (0:ℚ))]
    linarith [computeLossPct_lip_le h]

/-- Claim C1 (counterexample): the engine's loss function does not equal
the claimed piecewise function for every configuration.  At
`optimalMax = 6`, `alarmMin = 9` and speed `9` the engine computes
`min(12, 3 + 2*(9 - 8)) = 5` (the source hard-codes the constant 8 in
the last branch) while the claimed formula
`min(12, 3 + 2*(s - alarmMin))` gives `3`. -/
theorem C1_counterexample :
    computeLossPct 9 6 9 = 5 ∧ lossPctSpec 9 6 9 = 3 ∧
      computeLossPct 9 6 9 ≠ lossPctSpec 9 6 9 := by
  norm_num [computeLossPct, lossPctSpec, min_def]

/-- Claim C1 (amended): with `alarmMin = 8` (its default) the engine's
loss-percentage function equals the claimed piecewise function for
every speed and every `optimalMax` (the source's hard-coded 8 then
coincides with `alarmMin`); at the default configuration (6, 8) it
returns 1.0 at 6.0, 1.5 at 7.0, 3.0 at 8.0, 7.0 at 10.0 and 12.0 at
20.0, and it is non-decreasing and 2-Lipschitz (hence continuous)
across the breakpoints 6, 7, 8. -/
theorem C1_lossPct_amended :
    (∀ s optMax : ℚ, computeLossPct s optMax 8 = lossPctSpec s optMax 8) ∧
    computeLossPct 6 6 8 = 1 ∧ computeLossPct 7 6 8 = 3/2 ∧
    computeLossPct 8 6 8 = 3 ∧ computeLossPct 10 6 8 = 7 ∧
    computeLossPct 20 6 8 = 12 ∧
    (∀ u w : ℚ, u ≤ w → computeLossPct u 6 8 ≤ computeLossPct w 6 8) ∧
    (∀ u w : ℚ, |computeLossPct w 6 8 - computeLossPct u 6 8| ≤ 2 * |w - u|) := by
  refine ⟨fun _ _ => rfl, ?_, ?_, ?_, ?_, ?_, ?_, ?_⟩
  · norm_num [computeLossPct]
  · norm_num [computeLossPct]
  · norm_num [computeLossPct, min_def]
  · norm_num [computeLossPct, min_def]
  · norm_num [computeLossPct, min_def]
  · exact fun u w h => computeLossPct_mono h
  · exact fun u w => computeLossPct_abs_lip u w

/-- Witness for C1: the monotonicity component applied at the concrete
pair (5, 10). -/
theorem C1_witness :
    (5:ℚ) ≤ 10 ∧ computeLossPct 5 6 8 ≤ computeLossPct 10 6 8 :=
  ⟨by norm_num, C1_lossPct_amended.2.2.2.2.2.2.1 5 10 (by norm_num)⟩

end HarvesterSim
